import Mathlib

/-!
# AfriKar client: session store and API wrapper

A shallow embedding of `src/App.js`: the `AuthProvider` session store, the
`api` request wrapper, and the handlers of the `Landing`, `Auth` and
`Dashboard` views with the root's current view.  A handler is a function from
the state it reads to the state it leaves and the trace of its effects; the
handlers that await a request are also given in two halves, before and after
the `await`, for the event models of the requests in flight.

JavaScript values are embedded as `JsValue`.  Numbers are the integer-valued
doubles together with `NaN` and the two infinities (what `parseInt` and a
product of integers can return); the browser's
`JSON.stringify` / `JSON.parse` are not part of the repository and are taken
as a parameter (`JsonCodec`), with one concrete codec (`stdCodec`) used to
evaluate the definitions on concrete inputs.
-/

namespace AfriKar

/-! ## JavaScript values -/

/-- The JavaScript values the program manipulates. -/
inductive JsValue where
  | undefined : JsValue
  | null : JsValue
  | bool (b : Bool) : JsValue
  | num (n : Int) : JsValue
  | nan : JsValue
  | inf (negative : Bool) : JsValue
  | str (s : String) : JsValue
  | arr (xs : List JsValue) : JsValue
  | obj (kvs : List (String × JsValue)) : JsValue

namespace JsValue

/-- ToBoolean: what `if (v)`, `!v`, `v && w` and `v || w` test. -/
def truthy : JsValue → Bool
  | undefined => false
  | null => false
  | bool b => b
  | num n => n != 0
  | nan => false
  | inf _ => true
  | str s => s != ""
  | arr _ => true
  | obj _ => true

/-- The operator `a || b`: `a` when it is truthy, otherwise `b`. -/
def or (a b : JsValue) : JsValue := if a.truthy then a else b

/-- Joins already converted array elements with commas (`Array.prototype.join`). -/
def joinComma : List String → String
  | [] => ""
  | [s] => s
  | s :: t => s ++ "," ++ joinComma t

mutual
/-- ToString: the conversion applied by `new Error(v)`, by string
concatenation and by `localStorage.setItem`.  (A number is written in plain
decimal, as the engine does below `10^21`.) -/
def toStr : JsValue → String
  | undefined => "undefined"
  | null => "null"
  | bool true => "true"
  | bool false => "false"
  | num n => toString n
  | nan => "NaN"
  | inf false => "Infinity"
  | inf true => "-Infinity"
  | str s => s
  | arr xs => joinComma (elemStrs xs)
  | obj _ => "[object Object]"
/-- The elements of an array as `join` converts them: `null` and
`undefined` become the empty string. -/
def elemStrs : List JsValue → List String
  | [] => []
  | undefined :: t => "" :: elemStrs t
  | null :: t => "" :: elemStrs t
  | x :: t => toStr x :: elemStrs t
end

/-- Property read `v.key` on a value that is neither `null` nor `undefined`:
an own property of an object, `undefined` when there is none. -/
def getProp (key : String) : JsValue → JsValue
  | obj kvs => (kvs.lookup key).getD undefined
  | _ => undefined

end JsValue

/-! ## Strings read as numbers: `isNaN` and `parseInt` -/

/-- StrWhiteSpaceChar of ECMA-262: white space and line terminators, the
characters `Number(s)` and `parseInt(s)` skip. -/
def isStrWhiteSpace (c : Char) : Bool :=
  let n := c.toNat
  n == 9 || n == 10 || n == 11 || n == 12 || n == 13 || n == 32 || n == 160 ||
  n == 5760 || (8192 ≤ n && n ≤ 8202) || n == 8232 || n == 8233 || n == 8239 ||
  n == 8287 || n == 12288 || n == 65279

/-- The value of `c` as a digit of radix `r` (at most 16), if it is one. -/
def digitValue (r : Nat) (c : Char) : Option Nat :=
  let n := c.toNat
  let v := if 48 ≤ n && n ≤ 57 then n - 48
    else if 97 ≤ n && n ≤ 102 then n - 87
    else if 65 ≤ n && n ≤ 70 then n - 55
    else 16
  if v < r then some v else none

/-- Whether `c` is a digit of radix `r`. -/
def isRadixDigit (r : Nat) (c : Char) : Bool := (digitValue r c).isSome

/-- Removes an optional ExponentPart (`e` or `E`, optional sign, at least one
digit) and says whether nothing is left. -/
def exponentThenEnd : List Char → Bool
  | [] => true
  | c :: rest =>
    if c == 'e' || c == 'E' then
      let rest := match rest with
        | '+' :: r => r
        | '-' :: r => r
        | r => r
      !rest.isEmpty && rest.all (isRadixDigit 10)
    else false

/-- StrUnsignedDecimalLiteral: `Infinity`, `d+ . d* exp?`, `. d+ exp?` or
`d+ exp?`. -/
def isUnsignedDecimal (cs : List Char) : Bool :=
  if cs == "Infinity".toList then true
  else
    let intPart := cs.takeWhile (isRadixDigit 10)
    let rest := cs.dropWhile (isRadixDigit 10)
    match rest with
    | '.' :: frac =>
      let fracPart := frac.takeWhile (isRadixDigit 10)
      let rest := frac.dropWhile (isRadixDigit 10)
      (!intPart.isEmpty || !fracPart.isEmpty) && exponentThenEnd rest
    | _ => !intPart.isEmpty && exponentThenEnd rest

/-- StrNumericLiteral: a signed decimal literal, or an unsigned hexadecimal,
octal or binary integer literal. -/
def isStrNumericLiteral : List Char → Bool
  | '0' :: x :: rest =>
    if x == 'x' || x == 'X' then !rest.isEmpty && rest.all (isRadixDigit 16)
    else if x == 'o' || x == 'O' then !rest.isEmpty && rest.all (isRadixDigit 8)
    else if x == 'b' || x == 'B' then !rest.isEmpty && rest.all (isRadixDigit 2)
    else isUnsignedDecimal ('0' :: x :: rest)
  | '+' :: rest => isUnsignedDecimal rest
  | '-' :: rest => isUnsignedDecimal rest
  | cs => isUnsignedDecimal cs

/-- Drops StrWhiteSpaceChar from both ends. -/
def trimStrWhiteSpace (cs : List Char) : List Char :=
  ((cs.dropWhile isStrWhiteSpace).reverse.dropWhile isStrWhiteSpace).reverse

/-- Whether `Number(s)` is a number and not `NaN`: the trimmed string is empty
(the number `0`) or a StrNumericLiteral. -/
def stringIsNumber (s : String) : Bool :=
  let cs := trimStrWhiteSpace s.toList
  cs.isEmpty || isStrNumericLiteral cs

/-- The global `isNaN(v)`: whether ToNumber of `v` is `NaN`. -/
def isNaN : JsValue → Bool
  | .undefined => true
  | .null => false
  | .bool _ => false
  | .num _ => false
  | .nan => true
  | .inf _ => false
  | .str s => !stringIsNumber s
  | .arr xs => !stringIsNumber (JsValue.arr xs).toStr
  | .obj _ => true

/-- The mathematical value of a digit string in radix `r`. -/
def digitsValue (r : Nat) (cs : List Char) : Nat :=
  cs.foldl (fun acc c => acc * r + (digitValue r c).getD 0) 0

/-- The number of halvings that bring `m` below 2, with `fuel` steps at
most. -/
def floorLog2Fuel : Nat → Nat → Nat
  | 0, _ => 0
  | fuel + 1, m => if m < 2 then 0 else floorLog2Fuel fuel (m / 2) + 1

/-- The position of the leading bit of `m`: the largest `k` with
`2^k ≤ m`, and 0 for 0. -/
def floorLog2 (m : Nat) : Nat := floorLog2Fuel m m

/-- The double nearest to the natural number `m` (ties to the even
significand), as a natural number: `m` itself up to `2^53`, above that `m`
rounded to 53 significant bits. -/
def roundToDouble (m : Nat) : Nat :=
  if m < 2 ^ 53 then m
  else
    let e := floorLog2 m - 52
    let q := m / 2 ^ e
    let r := m % 2 ^ e
    let half := 2 ^ (e - 1)
    let q1 := if half < r || (r == half && q % 2 == 1) then q + 1 else q
    q1 * 2 ^ e

/-- The Number with sign `negative` and magnitude the natural number `m`:
the magnitude is rounded to a double, and is infinite from `2^1024` on. -/
def numberOfNat (negative : Bool) (m : Nat) : JsValue :=
  let r := roundToDouble m
  if 1024 ≤ floorLog2 r then JsValue.inf negative
  else if negative then JsValue.num (-(r : Int))
  else JsValue.num r

/-- The algorithm of `parseInt(string)` with no radix argument, on the
characters of the string: leading white space is skipped, a sign is read, a
`0x` or `0X` selects radix 16, the longest run of digits is the value,
rounded to a double, and no digit at all gives `NaN`. -/
def parseIntChars (cs : List Char) : JsValue :=
  let s := cs.dropWhile isStrWhiteSpace
  let neg := match s with
    | '-' :: _ => true
    | _ => false
  let s := match s with
    | '-' :: r => r
    | '+' :: r => r
    | r => r
  let radix := match s with
    | '0' :: 'x' :: _ => 16
    | '0' :: 'X' :: _ => 16
    | _ => 10
  let s := match s with
    | '0' :: 'x' :: r => r
    | '0' :: 'X' :: r => r
    | r => r
  let z := s.takeWhile (isRadixDigit radix)
  if z.isEmpty then JsValue.nan
  else numberOfNat neg (digitsValue radix z)

/-- The global `parseInt(v)`: the argument is converted to a string first. -/
def parseInt (v : JsValue) : JsValue := parseIntChars v.toStr.toList

/-- The comparison `v < k` for a `v` that `parseInt` returned: false when `v`
is `NaN`. -/
def ltNumber (v : JsValue) (k : Int) : Bool :=
  match v with
  | .num n => decide (n < k)
  | .inf negative => negative
  | _ => false

/-! ## The browser: `localStorage`, `JSON`, thrown errors -/

/-- The entries of `localStorage`: string keys with string values. -/
abbrev Storage := List (String × String)

namespace Storage

/-- The call `localStorage.getItem(key)`: the stored string, or `null`. -/
def getItem (st : Storage) (key : String) : JsValue :=
  match st.lookup key with
  | some v => JsValue.str v
  | none => JsValue.null

/-- The call `localStorage.removeItem(key)`. -/
def removeItem (st : Storage) (key : String) : Storage :=
  st.filter (fun p => p.1 != key)

/-- The call `localStorage.setItem(key, value)` with the value already
converted to a string. -/
def setItem (st : Storage) (key value : String) : Storage :=
  (key, value) :: removeItem st key

end Storage

/-- The `JSON` object of the browser and the messages of the errors the
engine raises itself.  `stringify` gives `none` where `JSON.stringify`
returns `undefined`; `parse` gives the message of the `SyntaxError` where
`JSON.parse` (or `response.json()`) fails. -/
structure JsonCodec where
  stringify : JsValue → Option String
  parse : String → Except String JsValue
  nullReadMessage : String → String

/-- A thrown error object: its `name` and its `message`. -/
structure Thrown where
  name : String
  message : String

/-- The in-memory state of `AuthProvider`: the two `useState` cells. -/
structure AuthState where
  user : JsValue
  token : JsValue

/-- The session as a whole: the in-memory state and the durable storage. -/
structure World where
  auth : AuthState
  storage : Storage

/-! ## `AuthProvider` -/

namespace AuthProvider

/-- The string `setItem` stores for `JSON.stringify(userData)`: when
`stringify` returns `undefined`, its conversion to a string. -/
def storedUser (J : JsonCodec) (userData : JsValue) : String :=
  match J.stringify userData with
  | some s => s
  | none => JsValue.undefined.toStr

/-- The initial values of the two `useState` cells (source lines 16-17). -/
def initial (st : Storage) : AuthState :=
  { user := JsValue.null, token := st.getItem "token" }

/-- The body of the `useEffect` (source lines 19-26), run after the first
render and after each render in which `token` changed.  `JSON.parse` may
throw. -/
def effect (J : JsonCodec) (w : World) : Except Thrown World :=
  if w.auth.token.truthy then
    let userData := w.storage.getItem "user"
    if userData.truthy then
      match J.parse userData.toStr with
      | .ok v => .ok { w with auth := { w.auth with user := v } }
      | .error m => .error { name := "SyntaxError", message := m }
    else .ok w
  else .ok w

/-- Mounting `AuthProvider` on a storage (a page load): the initial state,
then the effect. -/
def mount (J : JsonCodec) (st : Storage) : Except Thrown World :=
  effect J { auth := initial st, storage := st }

/-- The function `login` (source lines 28-33). -/
def login (J : JsonCodec) (w : World) (userData userToken : JsValue) : World :=
  { auth := { user := userData, token := userToken }
    storage := (w.storage.setItem "user" (storedUser J userData)).setItem "token" userToken.toStr }

/-- The function `logout` (source lines 35-40). -/
def logout (w : World) : World :=
  { auth := { user := JsValue.null, token := JsValue.null }
    storage := (w.storage.removeItem "user").removeItem "token" }

end AuthProvider

/-- What can happen to a session store: a call of `login`, a call of
`logout`, a run of the effect, or a reload of the page, which mounts the
store again on the durable storage. -/
inductive SessionOp where
  | login (userData userToken : JsValue) : SessionOp
  | logout : SessionOp
  | effect : SessionOp
  | reload : SessionOp

/-- One step of the session store. -/
def SessionOp.apply (J : JsonCodec) (w : World) : SessionOp → Except Thrown World
  | .login u t => .ok (AuthProvider.login J w u t)
  | .logout => .ok (AuthProvider.logout w)
  | .effect => AuthProvider.effect J w
  | .reload => AuthProvider.mount J w.storage

/-- A sequence of steps, stopping at the first one that throws. -/
def runSession (J : JsonCodec) (w : World) : List SessionOp → Except Thrown World
  | [] => .ok w
  | op :: ops =>
    match op.apply J w with
    | .ok w1 => runSession J w1 ops
    | .error e => .error e

/-- Presence of the token and of the identity, as the program tests them
(`if (token)`, `user && ...`). -/
def World.tokenPresent (w : World) : Bool := w.auth.token.truthy

/-- Presence of the identity. -/
def World.userPresent (w : World) : Bool := w.auth.user.truthy

/-! ## The `api` object -/

/-- The `options` argument of `api.request`: the keys a caller can set.
`body` is `undefined` and `method`, `headers` are `none` when the key is
missing. -/
structure RequestOptions where
  method : Option String
  body : JsValue
  headers : Option (List (String × String))

/-- The `config` object handed to `fetch`. -/
structure FetchConfig where
  headers : List (String × String)
  method : Option String
  body : JsValue

/-- What `fetch` resolves to: the status line and the bytes of the body. -/
structure Response where
  status : Nat
  body : String

/-- The property `response.ok`: a status in the range 200-299. -/
def Response.ok (r : Response) : Bool := 200 ≤ r.status && r.status ≤ 299

/-- The network: what `fetch(url, config)` settles to, a response or a
rejection. -/
abbrev Fetch := String → FetchConfig → Except Thrown Response

/-- The observable actions of a handler, in the order they happen. -/
inductive Effect where
  | prompt (message : String) : Effect
  | alert (message : String) : Effect
  | fetch (url : String) (config : FetchConfig) : Effect
  | consoleError (message : String) : Effect

/-- Whether the effect is a network request. -/
def Effect.isFetch : Effect → Bool
  | .fetch _ _ => true
  | _ => false

/-- Whether the effect is an alert dialog. -/
def Effect.isAlert : Effect → Bool
  | .alert _ => true
  | _ => false

/-- The test `typeof v === 'object'`. -/
def JsValue.typeofObject : JsValue → Bool
  | .null => true
  | .arr _ => true
  | .obj _ => true
  | _ => false

/-- The constant `API_BASE_URL` (source line 50), from the value of the
environment variable (`undefined` when unset). -/
def API_BASE_URL (envUrl : JsValue) : JsValue :=
  envUrl.or (JsValue.str "http://localhost:8001")

namespace api

/-- The `headers` object literal of `request` (source lines 58-61). -/
def defaultHeaders (token : JsValue) : List (String × String) :=
  ("Content-Type", "application/json") ::
    (if token.truthy then [("Authorization", "Bearer " ++ token.toStr)] else [])

/-- The `config` of `request` as `fetch` receives it (source lines 55-67):
the default headers, overwritten by the keys of `options`, and an object
body serialised. -/
def config (J : JsonCodec) (w : World) (options : RequestOptions) : FetchConfig :=
  let token := w.storage.getItem "token"
  let headers := match options.headers with
    | some h => h
    | none => defaultHeaders token
  let body :=
    if options.body.truthy && options.body.typeofObject then
      match J.stringify options.body with
      | some s => JsValue.str s
      | none => JsValue.undefined
    else options.body
  { headers := headers, method := options.method, body := body }

/-- The `url` of `request` (source line 54). -/
def url (base : JsValue) (endpoint : String) : String :=
  base.toStr ++ "/api" ++ endpoint

/-- What `request` does with the response (source lines 71-76). -/
def settle (J : JsonCodec) (response : Response) : Except Thrown JsValue :=
  if !response.ok then
    let error := match J.parse response.body with
      | .ok v => v
      | .error _ => JsValue.obj [("message", JsValue.str "Erreur réseau")]
    match error with
    | .null => .error { name := "TypeError", message := J.nullReadMessage "detail" }
    | .undefined => .error { name := "TypeError", message := J.nullReadMessage "detail" }
    | _ =>
      .error { name := "Error"
               message := (((error.getProp "detail").or (error.getProp "message")).or
                 (JsValue.str "Erreur inconnue")).toStr }
  else
    match J.parse response.body with
    | .ok v => .ok v
    | .error m => .error { name := "SyntaxError", message := m }

/-- The method `api.request(endpoint, options)` (source lines 53-77): the
request it issues and what the call settles to. -/
def request (J : JsonCodec) (net : Fetch) (base : JsValue) (w : World)
    (endpoint : String) (options : RequestOptions) : List Effect × Except Thrown JsValue :=
  let u := url base endpoint
  let c := config J w options
  ([Effect.fetch u c],
    match net u c with
    | .error e => .error e
    | .ok response => settle J response)

/-- The method `api.get(endpoint)` (source lines 79-81). -/
def get (J : JsonCodec) (net : Fetch) (base : JsValue) (w : World) (endpoint : String) :
    List Effect × Except Thrown JsValue :=
  request J net base w endpoint { method := none, body := JsValue.undefined, headers := none }

/-- The method `api.post(endpoint, data)` (source lines 83-88). -/
def post (J : JsonCodec) (net : Fetch) (base : JsValue) (w : World) (endpoint : String)
    (data : JsValue) : List Effect × Except Thrown JsValue :=
  request J net base w endpoint { method := some "POST", body := data, headers := none }

end api

/-! ## The search form and its query string -/

/-- The UTF-8 bytes of a character. -/
def utf8Bytes (c : Char) : List Nat :=
  let n := c.toNat
  if n < 128 then [n]
  else if n < 2048 then [192 + n / 64, 128 + n % 64]
  else if n < 65536 then [224 + n / 4096, 128 + n / 64 % 64, 128 + n % 64]
  else [240 + n / 262144, 128 + n / 4096 % 64, 128 + n / 64 % 64, 128 + n % 64]

/-- One hexadecimal digit, upper case. -/
def hexUpper (n : Nat) : Char :=
  if n < 10 then Char.ofNat (48 + n) else Char.ofNat (55 + n)

/-- A byte written as `%XX`. -/
def percentByte (b : Nat) : List Char := ['%', hexUpper (b / 16), hexUpper (b % 16)]

/-- The characters the `application/x-www-form-urlencoded` serialiser leaves
as they are: ASCII letters and digits, `*`, `-`, `.` and `_`. -/
def isUrlencodedSafe (c : Char) : Bool :=
  let n := c.toNat
  (48 ≤ n && n ≤ 57) || (65 ≤ n && n ≤ 90) || (97 ≤ n && n ≤ 122) ||
    c == '*' || c == '-' || c == '.' || c == '_'

/-- The serialisation of one character: a space becomes `+`, a safe character
stays, any other is the percent-encoding of its UTF-8 bytes. -/
def urlencodeChar (c : Char) : List Char :=
  if c == ' ' then ['+']
  else if isUrlencodedSafe c then [c]
  else (utf8Bytes c).flatMap percentByte

/-- The serialisation of a name or a value. -/
def urlencode (s : String) : String := String.mk (s.toList.flatMap urlencodeChar)

/-- Joins the serialised pairs with `&`. -/
def ampJoin : List String → String
  | [] => ""
  | [x] => x
  | x :: t => x ++ "&" ++ ampJoin t

namespace URLSearchParams

/-- The string conversion of a `URLSearchParams` holding the pairs `ps`, in
the order they were appended. -/
def toString (ps : List (String × String)) : String :=
  ampJoin (ps.map (fun p => urlencode p.1 ++ "=" ++ urlencode p.2))

end URLSearchParams

/-- The state `searchData` of the two search forms: three strings, the values
of the form fields. -/
structure SearchData where
  ville_depart : String
  ville_arrivee : String
  date_depart : String

/-- The call `Object.entries(searchData)`: the fields in the order of the
object literal. -/
def SearchData.entries (sd : SearchData) : List (String × String) :=
  [("ville_depart", sd.ville_depart), ("ville_arrivee", sd.ville_arrivee),
    ("date_depart", sd.date_depart)]

/-- The endpoint `handleSearch` requests (source lines 187-192 and 561-566):
the pairs whose value is truthy are appended to the query string. -/
def searchEndpoint (sd : SearchData) : String :=
  "/trajets?" ++ URLSearchParams.toString (sd.entries.filter (fun p => (JsValue.str p.2).truthy))

/-! ## The dashboard -/

/-- The state of the `Dashboard` component that its handlers change. -/
structure Dashboard where
  activeTab : String
  cities : JsValue
  rides : JsValue
  myRides : JsValue
  myBookings : JsValue
  loading : Bool
  searchData : SearchData
  rideData : JsValue

/-- The initial value of the create-ride form (source lines 503-512), to
which a successful creation resets it. -/
def emptyRideData : JsValue :=
  JsValue.obj [("ville_depart", JsValue.str ""), ("ville_arrivee", JsValue.str ""),
    ("date_depart", JsValue.str ""), ("heure_depart", JsValue.str ""),
    ("places_disponibles", JsValue.num 1), ("prix_par_place", JsValue.str ""),
    ("description", JsValue.str ""), ("vehicule_info", JsValue.str "")]

namespace Dashboard

/-- The function `loadRides` of the dashboard (source lines 530-537). -/
def loadRides (J : JsonCodec) (net : Fetch) (base : JsValue) (w : World) (d : Dashboard) :
    Dashboard × List Effect :=
  let r := api.get J net base w "/trajets"
  match r.2 with
  | .ok response => ({ d with rides := response }, r.1)
  | .error _ => (d, r.1 ++ [Effect.consoleError "Erreur lors du chargement des trajets:"])

/-- The handler `handleBookRide` (source lines 600-614); `places` is what
`prompt` returned, a string or `null`. -/
def handleBookRide (J : JsonCodec) (net : Fetch) (base : JsValue) (w : World) (d : Dashboard)
    (trajetId places : JsValue) : Dashboard × List Effect :=
  let asked := [Effect.prompt "Combien de places souhaitez-vous réserver ?"]
  if !places.truthy || isNaN places || ltNumber (parseInt places) 1 then (d, asked)
  else
    let r := api.post J net base w "/reservations"
      (JsValue.obj [("trajet_id", trajetId), ("nombre_places", parseInt places)])
    match r.2 with
    | .ok _ =>
      let l := loadRides J net base w d
      (l.1, asked ++ r.1 ++ [Effect.alert "Réservation effectuée avec succès!"] ++ l.2)
    | .error e =>
      (d, asked ++ r.1 ++ [Effect.alert ("Erreur lors de la réservation: " ++ e.message)])

end Dashboard

namespace Dashboard

/-- The function `loadMyRides` (source lines 539-546). -/
def loadMyRides (J : JsonCodec) (net : Fetch) (base : JsValue) (w : World) (d : Dashboard) :
    Dashboard × List Effect :=
  let r := api.get J net base w "/mes-trajets"
  match r.2 with
  | .ok response => ({ d with myRides := response }, r.1)
  | .error _ => (d, r.1 ++ [Effect.consoleError "Erreur lors du chargement de mes trajets:"])

/-- The handler `handleSearch` up to its `await` (source lines 558-559): the
loading flag is raised. -/
def searchSubmit (d : Dashboard) : Dashboard := { d with loading := true }

/-- The handler `handleSearch` once its request has settled (source lines
567-572). -/
def searchSettle (d : Dashboard) (result : Except Thrown JsValue) : Dashboard × List Effect :=
  match result with
  | .ok response => ({ d with rides := response, loading := false }, [])
  | .error e =>
    ({ d with loading := false }, [Effect.alert ("Erreur lors de la recherche: " ++ e.message)])

/-- The handler `handleSearch` of the dashboard (source lines 557-573). -/
def handleSearch (J : JsonCodec) (net : Fetch) (base : JsValue) (w : World) (d : Dashboard) :
    Dashboard × List Effect :=
  let r := api.get J net base w (searchEndpoint d.searchData)
  let s := searchSettle (searchSubmit d) r.2
  (s.1, r.1 ++ s.2)

/-- The handler `handleCreateRide` up to its `await` (source lines 576-577). -/
def createSubmit (d : Dashboard) : Dashboard := { d with loading := true }

/-- The handler `handleCreateRide` once its request has settled (source lines
580-597). -/
def createSettle (J : JsonCodec) (net : Fetch) (base : JsValue) (w : World) (d : Dashboard)
    (result : Except Thrown JsValue) : Dashboard × List Effect :=
  match result with
  | .ok _ =>
    let l := loadMyRides J net base w { d with rideData := emptyRideData, activeTab := "my-rides" }
    ({ l.1 with loading := false }, Effect.alert "Trajet créé avec succès!" :: l.2)
  | .error e =>
    ({ d with loading := false }, [Effect.alert ("Erreur lors de la création: " ++ e.message)])

/-- The handler `handleCreateRide` (source lines 575-598). -/
def handleCreateRide (J : JsonCodec) (net : Fetch) (base : JsValue) (w : World)
    (d : Dashboard) : Dashboard × List Effect :=
  let r := api.post J net base w "/trajets" d.rideData
  let s := createSettle J net base w (createSubmit d) r.2
  (s.1, r.1 ++ s.2)

/-- Whether `handleBookRide` goes past its guard (source line 602) and issues
its request. -/
def bookPasses (places : JsValue) : Bool :=
  !(!places.truthy || isNaN places || ltNumber (parseInt places) 1)

/-- The handler `handleBookRide` once its request has settled (source lines
609-613). -/
def bookSettle (J : JsonCodec) (net : Fetch) (base : JsValue) (w : World) (d : Dashboard)
    (result : Except Thrown JsValue) : Dashboard × List Effect :=
  match result with
  | .ok _ =>
    let l := loadRides J net base w d
    (l.1, Effect.alert "Réservation effectuée avec succès!" :: l.2)
  | .error e => (d, [Effect.alert ("Erreur lors de la réservation: " ++ e.message)])

/-- The attribute `disabled` of the submit buttons of the search and create
forms (source lines 682 and 843). -/
def submitDisabled (d : Dashboard) : Bool := d.loading

end Dashboard

/-! ## The landing page -/

/-- The state of the `Landing` component (source lines 151-158). -/
structure Landing where
  searchData : SearchData
  cities : JsValue
  rides : JsValue
  loading : Bool

namespace Landing

/-- The first six UTF-16 units of a string, as whole characters (a pair cut in
half is dropped: the embedding has no lone surrogates). -/
def takeUnits : Nat → List Char → List Char
  | _, [] => []
  | n, c :: t =>
    let k := if c.toNat < 65536 then 1 else 2
    if k ≤ n then c :: takeUnits (n - k) t else []

/-- The call `response.slice(0, 6)`: the first six elements of an array (or
units of a string); a `TypeError` on a value that has no `slice`. -/
def sliceSix (J : JsonCodec) : JsValue → Except Thrown JsValue
  | .arr xs => .ok (JsValue.arr (xs.take 6))
  | .str s => .ok (JsValue.str (String.mk (takeUnits 6 s.toList)))
  | .null => .error { name := "TypeError", message := J.nullReadMessage "slice" }
  | .undefined => .error { name := "TypeError", message := J.nullReadMessage "slice" }
  | _ => .error { name := "TypeError", message := "response.slice is not a function" }

/-- The function `loadRides` of the landing page (source lines 174-181). -/
def loadRides (J : JsonCodec) (net : Fetch) (base : JsValue) (w : World) (l : Landing) :
    Landing × List Effect :=
  let r := api.get J net base w "/trajets"
  match r.2 with
  | .ok response =>
    match sliceSix J response with
    | .ok shown => ({ l with rides := shown }, r.1)
    | .error _ => (l, r.1 ++ [Effect.consoleError "Erreur lors du chargement des trajets:"])
  | .error _ => (l, r.1 ++ [Effect.consoleError "Erreur lors du chargement des trajets:"])

/-- The handler `handleSearch` up to its `await` (source lines 184-185). -/
def searchSubmit (l : Landing) : Landing := { l with loading := true }

/-- The handler `handleSearch` once its request has settled (source lines
193-198). -/
def searchSettle (l : Landing) (result : Except Thrown JsValue) : Landing × List Effect :=
  match result with
  | .ok response => ({ l with rides := response, loading := false }, [])
  | .error e =>
    ({ l with loading := false }, [Effect.alert ("Erreur lors de la recherche: " ++ e.message)])

/-- The handler `handleSearch` of the landing page (source lines 183-199). -/
def handleSearch (J : JsonCodec) (net : Fetch) (base : JsValue) (w : World) (l : Landing) :
    Landing × List Effect :=
  let r := api.get J net base w (searchEndpoint l.searchData)
  let s := searchSettle (searchSubmit l) r.2
  (s.1, r.1 ++ s.2)

/-- The attribute `disabled` of the submit button (source line 257). -/
def submitDisabled (l : Landing) : Bool := l.loading

end Landing

/-! ## The root component and the authentication form -/

/-- The state of the root: the current view (`App`, source line 960) and the
session that `AuthProvider` holds. -/
structure App where
  currentView : String
  world : World

/-- The click on the logout button of the header (source line 137): the
function `logout` of the session store. -/
def App.logout (app : App) : App := { app with world := AuthProvider.logout app.world }

/-- The state `formData` of the authentication form (source lines 356-362). -/
structure FormData where
  nom : String
  prenom : String
  email : String
  telephone : String
  mot_de_passe : String

/-- The object `formData` as a value, its keys in the order of the object
literal. -/
def FormData.toJs (f : FormData) : JsValue :=
  JsValue.obj [("nom", JsValue.str f.nom), ("prenom", JsValue.str f.prenom),
    ("email", JsValue.str f.email), ("telephone", JsValue.str f.telephone),
    ("mot_de_passe", JsValue.str f.mot_de_passe)]

/-- The state of the `Auth` component (source lines 355-363). -/
structure Auth where
  isLogin : Bool
  formData : FormData
  loading : Bool

namespace Auth

/-- The endpoint of `handleSubmit` (source line 371). -/
def endpoint (a : Auth) : String := if a.isLogin then "/connexion" else "/inscription"

/-- The handler `handleSubmit` up to its `await` (source lines 367-368). -/
def submitBegin (a : Auth) : Auth := { a with loading := true }

/-- The handler `handleSubmit` once its request has settled (source lines
374-380): on a response, `login` and the switch to the dashboard, which a
response that is `null` turns into a caught `TypeError`. -/
def submitSettle (J : JsonCodec) (app : App) (a : Auth) (result : Except Thrown JsValue) :
    App × Auth × List Effect :=
  match result with
  | .ok .null =>
    (app, { a with loading := false }, [Effect.alert ("Erreur: " ++ J.nullReadMessage "user")])
  | .ok .undefined =>
    (app, { a with loading := false }, [Effect.alert ("Erreur: " ++ J.nullReadMessage "user")])
  | .ok response =>
    ({ currentView := "dashboard"
       world := AuthProvider.login J app.world (response.getProp "user")
         (response.getProp "access_token") },
      { a with loading := false }, [])
  | .error e => (app, { a with loading := false }, [Effect.alert ("Erreur: " ++ e.message)])

/-- The handler `handleSubmit` (source lines 366-381). -/
def handleSubmit (J : JsonCodec) (net : Fetch) (base : JsValue) (app : App) (a : Auth) :
    App × Auth × List Effect :=
  let r := api.post J net base app.world (endpoint a) a.formData.toJs
  let s := submitSettle J app (submitBegin a) r.2
  (s.1, s.2.1, r.1 ++ s.2.2)

/-- The attribute `disabled` of the submit button (source line 455). -/
def submitDisabled (a : Auth) : Bool := a.loading

end Auth

/-! ## The total of a booking -/

/-- StringToNumber on the characters of a string, for the strings whose value
is an integer written without fraction and exponent, an infinity or `NaN`;
`none` for a literal with a fraction or an exponent, whose value the
embedding does not hold. -/
def stringToNumber (cs : List Char) : Option JsValue :=
  let t := trimStrWhiteSpace cs
  if t.isEmpty then some (JsValue.num 0)
  else if !isStrNumericLiteral t then some JsValue.nan
  else
    match t with
    | '0' :: 'x' :: r => some (numberOfNat false (digitsValue 16 r))
    | '0' :: 'X' :: r => some (numberOfNat false (digitsValue 16 r))
    | '0' :: 'o' :: r => some (numberOfNat false (digitsValue 8 r))
    | '0' :: 'O' :: r => some (numberOfNat false (digitsValue 8 r))
    | '0' :: 'b' :: r => some (numberOfNat false (digitsValue 2 r))
    | '0' :: 'B' :: r => some (numberOfNat false (digitsValue 2 r))
    | _ =>
      let neg := match t with
        | '-' :: _ => true
        | _ => false
      let body := match t with
        | '-' :: r => r
        | '+' :: r => r
        | r => r
      if body == "Infinity".toList then some (JsValue.inf neg)
      else if body.all (isRadixDigit 10) then some (numberOfNat neg (digitsValue 10 body))
      else none

/-- ToNumber, the conversion the operator `*` applies to its operands; `none`
as for `stringToNumber`. -/
def toNumber : JsValue → Option JsValue
  | .undefined => some JsValue.nan
  | .null => some (JsValue.num 0)
  | .bool true => some (JsValue.num 1)
  | .bool false => some (JsValue.num 0)
  | .num n => some (JsValue.num n)
  | .nan => some JsValue.nan
  | .inf negative => some (JsValue.inf negative)
  | .str s => stringToNumber s.toList
  | .arr xs => stringToNumber (JsValue.arr xs).toStr.toList
  | .obj _ => some JsValue.nan

/-- The product of two Numbers: the exact product of two integers rounded to
a double, with the rules of the infinities and of `NaN`. -/
def mulNumbers : JsValue → JsValue → JsValue
  | .num a, .num b => numberOfNat (decide (a * b < 0)) (a * b).natAbs
  | .inf s, .inf t => JsValue.inf (s != t)
  | .inf s, .num n => if n = 0 then JsValue.nan else JsValue.inf (s != decide (n < 0))
  | .num n, .inf s => if n = 0 then JsValue.nan else JsValue.inf (s != decide (n < 0))
  | _, _ => JsValue.nan

/-- The operator `a * b`. -/
def jsMul (a b : JsValue) : Option JsValue :=
  match toNumber a, toNumber b with
  | some x, some y => some (mulNumbers x y)
  | _, _ => none

/-- The expression `booking.trajet.prix_par_place * booking.nombre_places`
that the bookings tab displays as the total (source line 927); reading a
property of a missing `trajet` throws. -/
def Dashboard.bookingTotal (J : JsonCodec) (booking : JsValue) : Except Thrown (Option JsValue) :=
  match booking.getProp "trajet" with
  | .null => .error { name := "TypeError", message := J.nullReadMessage "prix_par_place" }
  | .undefined => .error { name := "TypeError", message := J.nullReadMessage "prix_par_place" }
  | trajet => .ok (jsMul (trajet.getProp "prix_par_place") (booking.getProp "nombre_places"))

/-! ## Requests in flight -/

/-- The user actions of the dashboard that issue a request. -/
inductive DashAction where
  | search : DashAction
  | create : DashAction
  | book : DashAction
  deriving DecidableEq

/-- A mounted dashboard together with the actions whose request has been
issued and has not settled yet. -/
structure DashRun where
  view : Dashboard
  pending : List DashAction

/-- What happens to a mounted dashboard: the user submits a form, books a
ride (answering the prompt with `places`), changes tab or edits a form, or a
request that is in flight settles. -/
inductive DashEvent where
  | submitSearch : DashEvent
  | settleSearch (result : Except Thrown JsValue) : DashEvent
  | submitCreate : DashEvent
  | settleCreate (result : Except Thrown JsValue) : DashEvent
  | book (places : JsValue) : DashEvent
  | settleBook (result : Except Thrown JsValue) : DashEvent
  | setActiveTab (tab : String) : DashEvent
  | setSearchData (sd : SearchData) : DashEvent
  | setRideData (rd : JsValue) : DashEvent

/-- One event on a mounted dashboard; `none` when the event cannot happen: a
form that is not displayed or whose submit button is disabled cannot be
submitted, and only a request in flight can settle. -/
def DashRun.step (J : JsonCodec) (net : Fetch) (base : JsValue) (w : World) (r : DashRun) :
    DashEvent → Option DashRun
  | .submitSearch =>
    if r.view.activeTab == "search" && !r.view.submitDisabled then
      some { view := Dashboard.searchSubmit r.view, pending := DashAction.search :: r.pending }
    else none
  | .settleSearch result =>
    if DashAction.search ∈ r.pending then
      some { view := (Dashboard.searchSettle r.view result).1
             pending := r.pending.erase DashAction.search }
    else none
  | .submitCreate =>
    if r.view.activeTab == "create" && !r.view.submitDisabled then
      some { view := Dashboard.createSubmit r.view, pending := DashAction.create :: r.pending }
    else none
  | .settleCreate result =>
    if DashAction.create ∈ r.pending then
      some { view := (Dashboard.createSettle J net base w r.view result).1
             pending := r.pending.erase DashAction.create }
    else none
  | .book places =>
    if r.view.activeTab == "search" then
      if Dashboard.bookPasses places then some { r with pending := DashAction.book :: r.pending }
      else some r
    else none
  | .settleBook result =>
    if DashAction.book ∈ r.pending then
      some { view := (Dashboard.bookSettle J net base w r.view result).1
             pending := r.pending.erase DashAction.book }
    else none
  | .setActiveTab tab => some { r with view := { r.view with activeTab := tab } }
  | .setSearchData sd => some { r with view := { r.view with searchData := sd } }
  | .setRideData rd => some { r with view := { r.view with rideData := rd } }

/-- A sequence of events on a mounted dashboard. -/
def DashRun.run (J : JsonCodec) (net : Fetch) (base : JsValue) (w : World) :
    DashRun → List DashEvent → Option DashRun
  | r, [] => some r
  | r, e :: es =>
    match r.step J net base w e with
    | some r1 => DashRun.run J net base w r1 es
    | none => none

/-- A mounted view with one form (the landing page, the authentication form)
together with the number of its requests in flight. -/
structure FormRun (V : Type) where
  view : V
  pending : Nat

/-- What happens to a mounted view with one form: the form is submitted, its
request settles, or the view changes in a way that leaves the loading flag
alone. -/
inductive FormEvent (V : Type) where
  | submit : FormEvent V
  | settle (result : Except Thrown JsValue) : FormEvent V
  | edit (f : V → V) : FormEvent V

/-- One event on the landing page; an edit is any change of the state that
leaves the loading flag as it is (typing in the form, a list that loads). -/
def landingStep (r : FormRun Landing) : FormEvent Landing → Option (FormRun Landing)
  | .submit =>
    if r.view.submitDisabled then none
    else some { view := Landing.searchSubmit r.view, pending := r.pending + 1 }
  | .settle result =>
    if r.pending = 0 then none
    else some { view := (Landing.searchSettle r.view result).1, pending := r.pending - 1 }
  | .edit f => some { r with view := { f r.view with loading := r.view.loading } }

/-- A sequence of events on the landing page. -/
def landingRun : FormRun Landing → List (FormEvent Landing) → Option (FormRun Landing)
  | r, [] => some r
  | r, e :: es =>
    match landingStep r e with
    | some r1 => landingRun r1 es
    | none => none

/-- One event on the authentication form; an edit is any change of the state
that leaves the loading flag as it is (typing, switching the mode). -/
def authStep (J : JsonCodec) (app : App) (r : FormRun Auth) :
    FormEvent Auth → Option (FormRun Auth)
  | .submit =>
    if r.view.submitDisabled then none
    else some { view := Auth.submitBegin r.view, pending := r.pending + 1 }
  | .settle result =>
    if r.pending = 0 then none
    else some { view := (Auth.submitSettle J app r.view result).2.1, pending := r.pending - 1 }
  | .edit f => some { r with view := { f r.view with loading := r.view.loading } }

/-- A sequence of events on the authentication form. -/
def authRun (J : JsonCodec) (app : App) :
    FormRun Auth → List (FormEvent Auth) → Option (FormRun Auth)
  | r, [] => some r
  | r, e :: es =>
    match authStep J app r e with
    | some r1 => authRun J app r1 es
    | none => none

/-! ## A concrete `JSON`

A serialiser and a parser for JSON texts, used to run the model on concrete
inputs.  Number literals with a fraction or an exponent have no counterpart
in `JsValue` and are rejected. -/

namespace StdJson

/-- One hexadecimal digit, lower case. -/
def hexDigit (n : Nat) : Char :=
  if n < 10 then Char.ofNat (48 + n) else Char.ofNat (87 + n)

/-- The characters `JSON.stringify` writes for one character of a string. -/
def escapeChar (c : Char) : List Char :=
  let n := c.toNat
  if c == '"' then ['\\', '"']
  else if c == '\\' then ['\\', '\\']
  else if n == 8 then ['\\', 'b']
  else if n == 9 then ['\\', 't']
  else if n == 10 then ['\\', 'n']
  else if n == 12 then ['\\', 'f']
  else if n == 13 then ['\\', 'r']
  else if n < 32 then ['\\', 'u', '0', '0', hexDigit (n / 16), hexDigit (n % 16)]
  else [c]

/-- A string as a JSON string literal. -/
def quote (s : String) : String :=
  String.mk ('"' :: (s.toList.flatMap escapeChar ++ ['"']))

/-- Joins the serialised elements or members with commas. -/
def commaJoin : List String → String
  | [] => ""
  | [x] => x
  | x :: t => x ++ "," ++ commaJoin t

mutual
/-- The function `JSON.stringify(v)`; `none` is `undefined`. -/
def stringify : JsValue → Option String
  | .undefined => none
  | .null => some "null"
  | .bool true => some "true"
  | .bool false => some "false"
  | .num n => some (toString n)
  | .nan => some "null"
  | .inf _ => some "null"
  | .str s => some (quote s)
  | .arr xs => some ("[" ++ commaJoin (stringifyElems xs) ++ "]")
  | .obj kvs => some ("\x7b" ++ commaJoin (stringifyMembers kvs) ++ "\x7d")
/-- The elements of an array: `undefined` is written `null`. -/
def stringifyElems : List JsValue → List String
  | [] => []
  | x :: t => (stringify x).getD "null" :: stringifyElems t
/-- The members of an object: a member whose value is `undefined` is left
out. -/
def stringifyMembers : List (String × JsValue) → List String
  | [] => []
  | (k, v) :: t =>
    match stringify v with
    | some sv => (quote k ++ ":" ++ sv) :: stringifyMembers t
    | none => stringifyMembers t
end

/-- JSON white space. -/
def isJsonSpace (c : Char) : Bool :=
  c == ' ' || c.toNat == 9 || c.toNat == 10 || c.toNat == 13

/-- Sets member `k` of an object under construction: a repeated key keeps its
place and takes the later value. -/
def setMember (k : String) (v : JsValue) : List (String × JsValue) → List (String × JsValue)
  | [] => [(k, v)]
  | (k1, v1) :: t => if k1 == k then (k, v) :: t else (k1, v1) :: setMember k v t

/-- Reads the rest of a string literal, after its opening quote. -/
def parseStringBody : List Char → List Char → Option (String × List Char)
  | [], _ => none
  | c :: rest, acc =>
    if c == '"' then some (String.mk acc.reverse, rest)
    else if c.toNat < 32 then none
    else if c == '\\' then
      match rest with
      | '"' :: r => parseStringBody r ('"' :: acc)
      | '\\' :: r => parseStringBody r ('\\' :: acc)
      | '/' :: r => parseStringBody r ('/' :: acc)
      | 'b' :: r => parseStringBody r (Char.ofNat 8 :: acc)
      | 't' :: r => parseStringBody r (Char.ofNat 9 :: acc)
      | 'n' :: r => parseStringBody r (Char.ofNat 10 :: acc)
      | 'f' :: r => parseStringBody r (Char.ofNat 12 :: acc)
      | 'r' :: r => parseStringBody r (Char.ofNat 13 :: acc)
      | 'u' :: a :: b :: c1 :: d :: r =>
        match digitValue 16 a, digitValue 16 b, digitValue 16 c1, digitValue 16 d with
        | some x, some y, some z, some w =>
          parseStringBody r (Char.ofNat (((x * 16 + y) * 16 + z) * 16 + w) :: acc)
        | _, _, _, _ => none
      | _ => none
    else parseStringBody rest (c :: acc)

/-- Reads an integer literal: `0`, or a non-zero digit and more digits. -/
def parseNat (cs : List Char) : Option (Nat × List Char) :=
  let ds := cs.takeWhile (isRadixDigit 10)
  let rest := cs.dropWhile (isRadixDigit 10)
  match ds with
  | [] => none
  | '0' :: _ :: _ => none
  | _ =>
    match rest with
    | '.' :: _ => none
    | 'e' :: _ => none
    | 'E' :: _ => none
    | _ => some (digitsValue 10 ds, rest)

mutual
/-- Reads one JSON value and returns what follows it. -/
def parseValue : Nat → List Char → Option (JsValue × List Char)
  | 0, _ => none
  | fuel + 1, cs =>
    match cs.dropWhile isJsonSpace with
    | 'n' :: 'u' :: 'l' :: 'l' :: r => some (JsValue.null, r)
    | 't' :: 'r' :: 'u' :: 'e' :: r => some (JsValue.bool true, r)
    | 'f' :: 'a' :: 'l' :: 's' :: 'e' :: r => some (JsValue.bool false, r)
    | '"' :: r => (parseStringBody r []).map (fun p => (JsValue.str p.1, p.2))
    | '-' :: r => (parseNat r).map (fun p => (JsValue.num (-(p.1 : Int)), p.2))
    | '[' :: r =>
      match r.dropWhile isJsonSpace with
      | ']' :: r1 => some (JsValue.arr [], r1)
      | _ => (parseElems fuel r).map (fun p => (JsValue.arr p.1, p.2))
    | c :: r =>
      if c == Char.ofNat 123 then
        match r.dropWhile isJsonSpace with
        | [] => none
        | c1 :: r1 =>
          if c1 == Char.ofNat 125 then some (JsValue.obj [], r1)
          else (parseMembers fuel r []).map (fun p => (JsValue.obj p.1, p.2))
      else (parseNat (c :: r)).map (fun p => (JsValue.num p.1, p.2))
    | [] => none
/-- Reads the elements of an array up to and including the closing
bracket. -/
def parseElems : Nat → List Char → Option (List JsValue × List Char)
  | 0, _ => none
  | fuel + 1, cs =>
    match parseValue fuel cs with
    | none => none
    | some (v, rest) =>
      match rest.dropWhile isJsonSpace with
      | ',' :: r => (parseElems fuel r).map (fun p => (v :: p.1, p.2))
      | ']' :: r => some ([v], r)
      | _ => none
/-- Reads the members of an object up to and including the closing brace. -/
def parseMembers : Nat → List Char → List (String × JsValue) →
    Option (List (String × JsValue) × List Char)
  | 0, _, _ => none
  | fuel + 1, cs, acc =>
    match cs.dropWhile isJsonSpace with
    | '"' :: r =>
      match parseStringBody r [] with
      | none => none
      | some (k, rest) =>
        match rest.dropWhile isJsonSpace with
        | ':' :: r1 =>
          match parseValue fuel r1 with
          | none => none
          | some (v, rest1) =>
            match rest1.dropWhile isJsonSpace with
            | [] => none
            | c :: r2 =>
              if c == ',' then parseMembers fuel r2 (setMember k v acc)
              else if c == Char.ofNat 125 then some (setMember k v acc, r2)
              else none
        | _ => none
    | _ => none
end

/-- The function `JSON.parse(text)`: one value, then only white space. -/
def parse (text : String) : Except String JsValue :=
  match parseValue (2 * text.length + 2) text.toList with
  | some (v, rest) =>
    if rest.all isJsonSpace then .ok v else .error "Unexpected non-whitespace character"
  | none => .error "Unexpected token"

end StdJson

/-- The concrete codec. -/
def stdCodec : JsonCodec :=
  { stringify := StdJson.stringify
    parse := StdJson.parse
    nullReadMessage := fun key => "Cannot read properties of null (reading '" ++ key ++ "')" }

/-- The headers of the network requests in a trace, one entry per request. -/
def sentHeaders : List Effect → List (List (String × String))
  | [] => []
  | Effect.fetch _ c :: t => c.headers :: sentHeaders t
  | _ :: t => sentHeaders t

/-- The network used in the examples: every request is answered with status
200 and an empty array. -/
def okNet : Fetch := fun _ _ => .ok { status := 200, body := "[]" }

/-- An empty session on an empty storage. -/
def emptyWorld : World :=
  { auth := { user := JsValue.null, token := JsValue.null }, storage := [] }

/-- An identity record used in the examples. -/
def sampleUser : JsValue :=
  JsValue.obj [("prenom", JsValue.str "Awa"), ("id", JsValue.num 7)]

/-- The dashboard as it is mounted (source lines 488-512): the search tab,
empty lists and empty forms. -/
def sampleDashboard : Dashboard :=
  { activeTab := "search", cities := JsValue.arr [], rides := JsValue.arr []
    myRides := JsValue.arr [], myBookings := JsValue.arr [], loading := false
    searchData := { ville_depart := "", ville_arrivee := "", date_depart := "" }
    rideData := emptyRideData }

/-- The steps a valid use of the session store makes: `login` with a present
(truthy) identity, whose serialisation is a non-empty text that parses to a
present identity, and a present token; `logout`; runs of the effect;
reloads. -/
def SessionOp.WellFormed (J : JsonCodec) : SessionOp → Prop
  | .login u t =>
    u.truthy = true ∧ t.truthy = true ∧ AuthProvider.storedUser J u ≠ "" ∧
      ∃ v, J.parse (AuthProvider.storedUser J u) = .ok v ∧ v.truthy = true
  | .logout => True
  | .effect => True
  | .reload => True

/-- Whether the step is a call of `login` or `logout`. -/
def SessionOp.isCall : SessionOp → Bool
  | .login _ _ => true
  | .logout => true
  | .effect => false
  | .reload => false

/-- A durable `user` entry that rehydrates to a present identity: it is a
non-empty string and parses to a truthy value. -/
def Storage.usableUser (J : JsonCodec) (st : Storage) : Prop :=
  (st.getItem "user").truthy = true ∧
    ∃ v, J.parse (st.getItem "user").toStr = .ok v ∧ v.truthy = true

/-- A durable storage in which a present (non-empty) token comes with a usable
`user` entry; a storage without a token, or with the empty token, is one. -/
def Storage.Consistent (J : JsonCodec) (st : Storage) : Prop :=
  (st.getItem "token").truthy = true → Storage.usableUser J st

/-- The invariant of the session store: presence of the token and of the
identity agree in memory, a non-empty durable `user` entry read while the
token is present parses to a present identity, and the durable storage is
consistent. -/
def SessionInv (J : JsonCodec) (w : World) : Prop :=
  w.tokenPresent = w.userPresent ∧
  (w.auth.token.truthy = true → (w.storage.getItem "user").truthy = true →
    ∃ v, J.parse (w.storage.getItem "user").toStr = .ok v ∧ v.truthy = true) ∧
  Storage.Consistent J w.storage

/-- The path of the search request as the specification words it:
`/trajets?`, then `key=value` for each non-empty field, in the order
`ville_depart`, `ville_arrivee`, `date_depart`, joined by `&`, the values
form-urlencoded. -/
def specSearchPath (sd : SearchData) : String :=
  "/trajets?" ++ ampJoin
    ((if sd.ville_depart = "" then [] else ["ville_depart=" ++ urlencode sd.ville_depart]) ++
     (if sd.ville_arrivee = "" then [] else ["ville_arrivee=" ++ urlencode sd.ville_arrivee]) ++
     (if sd.date_depart = "" then [] else ["date_depart=" ++ urlencode sd.date_depart]))

/-- Whether the effect is a network request with method `POST`. -/
def Effect.isPost : Effect → Bool
  | .fetch _ c => c.method == some "POST"
  | _ => false

/-- The options of `api.get`. -/
def getOptions : RequestOptions :=
  { method := none, body := JsValue.undefined, headers := none }

/-- The landing page as it is mounted (source lines 151-158). -/
def sampleLanding : Landing :=
  { searchData := { ville_depart := "", ville_arrivee := "", date_depart := "" }
    cities := JsValue.arr [], rides := JsValue.arr [], loading := false }

/-- The authentication form as it is mounted (source lines 355-363): login
mode, empty fields. -/
def sampleAuth : Auth :=
  { isLogin := true
    formData := { nom := "", prenom := "", email := "", telephone := "", mot_de_passe := "" }
    loading := false }

/-- An application on its authentication view with nobody logged in. -/
def sampleApp : App := { currentView := "auth", world := emptyWorld }

/-- The authentication form in login mode with an email and a password typed. -/
def filledAuth : Auth :=
  { isLogin := true
    formData := { nom := "", prenom := "", email := "awa@afrikar.sn", telephone := ""
                  mot_de_passe := "secret" }
    loading := false }

/-- The invariant of a mounted dashboard: the number of search and create
requests in flight is 1 while the loading flag is raised and 0 otherwise. -/
def DashRun.Inv (r : DashRun) : Prop :=
  r.pending.count DashAction.search + r.pending.count DashAction.create =
    if r.view.loading then 1 else 0

/-- The invariant of a mounted view with one form: one request in flight
while the loading flag is raised, none otherwise. -/
def formInv (loading : Bool) (pending : Nat) : Prop :=
  pending = if loading then 1 else 0

/-- A booking of `n` seats on a ride at `p` per seat, as the backend sends
it. -/
def sampleBooking (p n : Int) : JsValue :=
  JsValue.obj [("id", JsValue.str "b1"),
    ("trajet", JsValue.obj [("ville_depart", JsValue.str "Dakar"),
      ("prix_par_place", JsValue.num p)]),
    ("nombre_places", JsValue.num n), ("statut", JsValue.str "confirmee")]

/-! ## Storage lemmas -/

namespace Storage

theorem lookup_removeItem_self (st : Storage) (k : String) :
    List.lookup k (removeItem st k) = none := by
  induction st with
  | nil => rfl
  | cons p t ih =>
    obtain ⟨a, b⟩ := p
    by_cases h : a = k
    · subst h
      simpa [removeItem, List.filter] using ih
    · have hk : (k == a) = false := by simpa using fun e => h e.symm
      have ha : (a != k) = true := by simpa using h
      simp only [removeItem, List.filter, ha]
      simp only [List.lookup, hk]
      simpa [removeItem] using ih

theorem lookup_removeItem_other (st : Storage) (k k1 : String) (h : k1 ≠ k) :
    List.lookup k1 (removeItem st k) = List.lookup k1 st := by
  induction st with
  | nil => rfl
  | cons p t ih =>
    obtain ⟨a, b⟩ := p
    by_cases ha : a = k
    · subst ha
      have hk : (k1 == a) = false := by simpa using h
      simp only [List.lookup, hk]
      simpa [removeItem, List.filter] using ih
    · have hne : (a != k) = true := by simpa using ha
      simp only [removeItem, List.filter, hne]
      by_cases hk : k1 = a
      · subst hk
        simp [List.lookup]
      · have hk1 : (k1 == a) = false := by simpa using hk
        simp only [List.lookup, hk1]
        simpa [removeItem] using ih

theorem lookup_setItem_self (st : Storage) (k v : String) :
    List.lookup k (setItem st k v) = some v := by
  simp [setItem, List.lookup]

theorem lookup_setItem_other (st : Storage) (k v k1 : String) (h : k1 ≠ k) :
    List.lookup k1 (setItem st k v) = List.lookup k1 st := by
  have hk : (k1 == k) = false := by simpa using h
  simp only [setItem, List.lookup, hk]
  exact lookup_removeItem_other st k k1 h

theorem getItem_of_lookup_some {st : Storage} {k v : String} (h : List.lookup k st = some v) :
    getItem st k = JsValue.str v := by
  simp [getItem, h]

theorem getItem_of_lookup_none {st : Storage} {k : String} (h : List.lookup k st = none) :
    getItem st k = JsValue.null := by
  simp [getItem, h]

end Storage

/-! ## Session store lemmas -/

namespace AuthProvider

theorem login_lookup_user (J : JsonCodec) (w : World) (u t : JsValue) :
    List.lookup "user" (login J w u t).storage = some (storedUser J u) := by
  have h : ("user" : String) ≠ "token" := by decide
  simp only [login]
  rw [Storage.lookup_setItem_other _ _ _ _ h, Storage.lookup_setItem_self]

theorem login_lookup_token (J : JsonCodec) (w : World) (u t : JsValue) :
    List.lookup "token" (login J w u t).storage = some t.toStr := by
  simp only [login, Storage.lookup_setItem_self]

theorem login_lookup_other (J : JsonCodec) (w : World) (u t : JsValue) (k : String)
    (hu : k ≠ "user") (ht : k ≠ "token") :
    List.lookup k (login J w u t).storage = List.lookup k w.storage := by
  simp only [login]
  rw [Storage.lookup_setItem_other _ _ _ _ ht, Storage.lookup_setItem_other _ _ _ _ hu]

theorem logout_lookup_user (w : World) : List.lookup "user" (logout w).storage = none := by
  have h : ("user" : String) ≠ "token" := by decide
  simp only [logout]
  rw [Storage.lookup_removeItem_other _ _ _ h, Storage.lookup_removeItem_self]

theorem logout_lookup_token (w : World) : List.lookup "token" (logout w).storage = none := by
  simp only [logout, Storage.lookup_removeItem_self]

theorem mount_no_token (J : JsonCodec) (st : Storage) (h : List.lookup "token" st = none) :
    mount J st = .ok { auth := { user := JsValue.null, token := JsValue.null }, storage := st } := by
  simp [mount, effect, initial, Storage.getItem_of_lookup_none h, JsValue.truthy]

theorem mount_empty_token (J : JsonCodec) (st : Storage) (h : List.lookup "token" st = some "") :
    mount J st =
      .ok { auth := { user := JsValue.null, token := JsValue.str "" }, storage := st } := by
  simp [mount, effect, initial, Storage.getItem_of_lookup_some h, JsValue.truthy]

theorem mount_rehydrates (J : JsonCodec) (st : Storage) (tok ud : String) (v : JsValue)
    (ht : List.lookup "token" st = some tok) (htne : tok ≠ "")
    (hu : List.lookup "user" st = some ud) (hune : ud ≠ "") (hp : J.parse ud = .ok v) :
    mount J st = .ok { auth := { user := v, token := JsValue.str tok }, storage := st } := by
  simp [mount, effect, initial, Storage.getItem_of_lookup_some ht,
    Storage.getItem_of_lookup_some hu, JsValue.truthy, JsValue.toStr, htne, hune, hp]

theorem mount_missing_user (J : JsonCodec) (st : Storage) (tok : String)
    (ht : List.lookup "token" st = some tok) (hu : List.lookup "user" st = none) :
    mount J st =
      .ok { auth := { user := JsValue.null, token := JsValue.str tok }, storage := st } := by
  by_cases htne : tok = ""
  · simp [mount, effect, initial, Storage.getItem_of_lookup_some ht, JsValue.truthy, htne]
  · simp [mount, effect, initial, Storage.getItem_of_lookup_some ht,
      Storage.getItem_of_lookup_none hu, JsValue.truthy, htne]

theorem mount_empty_user (J : JsonCodec) (st : Storage) (tok : String)
    (ht : List.lookup "token" st = some tok) (hu : List.lookup "user" st = some "") :
    mount J st =
      .ok { auth := { user := JsValue.null, token := JsValue.str tok }, storage := st } := by
  by_cases htne : tok = ""
  · simp [mount, effect, initial, Storage.getItem_of_lookup_some ht, JsValue.truthy, htne]
  · simp [mount, effect, initial, Storage.getItem_of_lookup_some ht,
      Storage.getItem_of_lookup_some hu, JsValue.truthy, htne]

theorem mount_unparseable_user (J : JsonCodec) (st : Storage) (tok ud m : String)
    (ht : List.lookup "token" st = some tok) (htne : tok ≠ "")
    (hu : List.lookup "user" st = some ud) (hune : ud ≠ "") (hp : J.parse ud = .error m) :
    mount J st = .error { name := "SyntaxError", message := m } := by
  simp [mount, effect, initial, Storage.getItem_of_lookup_some ht,
    Storage.getItem_of_lookup_some hu, JsValue.truthy, JsValue.toStr, htne, hune, hp]

theorem logout_lookup_other (w : World) (k : String) (hu : k ≠ "user") (ht : k ≠ "token") :
    List.lookup k (logout w).storage = List.lookup k w.storage := by
  simp only [logout]
  rw [Storage.lookup_removeItem_other _ _ _ ht, Storage.lookup_removeItem_other _ _ _ hu]

end AuthProvider

theorem sessionInv_login (J : JsonCodec) (w : World) (u t : JsValue)
    (h : (SessionOp.login u t).WellFormed J) : SessionInv J (AuthProvider.login J w u t) := by
  obtain ⟨hu, ht, hne, v, hp, hv⟩ := h
  have hentry : (AuthProvider.login J w u t).storage.getItem "user" =
      JsValue.str (AuthProvider.storedUser J u) :=
    Storage.getItem_of_lookup_some (AuthProvider.login_lookup_user J w u t)
  have husable : Storage.usableUser J (AuthProvider.login J w u t).storage := by
    refine ⟨?_, v, ?_, hv⟩
    · rw [hentry]
      simp [JsValue.truthy, hne]
    · rw [hentry]
      simpa [JsValue.toStr] using hp
  refine ⟨?_, fun _ _ => husable.2, fun _ => husable⟩
  simp [World.tokenPresent, World.userPresent, AuthProvider.login, hu, ht]

theorem sessionInv_logout (J : JsonCodec) (w : World) : SessionInv J (AuthProvider.logout w) := by
  refine ⟨rfl, ?_, ?_⟩
  · intro h
    simp [AuthProvider.logout, JsValue.truthy] at h
  · intro h
    rw [Storage.getItem_of_lookup_none (AuthProvider.logout_lookup_token w)] at h
    simp [JsValue.truthy] at h

theorem sessionInv_effect (J : JsonCodec) (w : World) (h : SessionInv J w) :
    ∃ w1, AuthProvider.effect J w = .ok w1 ∧ SessionInv J w1 := by
  unfold AuthProvider.effect
  by_cases ht : w.auth.token.truthy = true
  · by_cases hu : (w.storage.getItem "user").truthy = true
    · obtain ⟨v, hp, hv⟩ := h.2.1 ht hu
      refine ⟨{ w with auth := { w.auth with user := v } }, by simp [ht, hu, hp], ?_, ?_, h.2.2⟩
      · simp [World.tokenPresent, World.userPresent, ht, hv]
      · exact fun _ _ => ⟨v, hp, hv⟩
    · exact ⟨w, by simp [ht, hu], h⟩
  · exact ⟨w, by simp [ht], h⟩

theorem sessionInv_mount (J : JsonCodec) (st : Storage) (h : Storage.Consistent J st) :
    ∃ w1, AuthProvider.mount J st = .ok w1 ∧ SessionInv J w1 := by
  unfold AuthProvider.mount AuthProvider.effect AuthProvider.initial
  by_cases ht : (st.getItem "token").truthy = true
  · obtain ⟨hu, v, hp, hv⟩ := h ht
    refine ⟨{ auth := { user := v, token := st.getItem "token" }, storage := st },
      by simp [ht, hu, hp], ?_, ?_, h⟩
    · simp [World.tokenPresent, World.userPresent, ht, hv]
    · exact fun _ _ => ⟨v, hp, hv⟩
  · refine ⟨{ auth := { user := JsValue.null, token := st.getItem "token" }, storage := st },
      by simp [ht], ?_, ?_, h⟩
    · simp only [Bool.not_eq_true] at ht
      show (st.getItem "token").truthy = JsValue.null.truthy
      rw [ht]
      rfl
    · intro h1
      exact absurd h1 ht

theorem runSession_of_sessionInv (J : JsonCodec) (ops : List SessionOp) :
    ∀ w : World, SessionInv J w → (∀ o ∈ ops, SessionOp.WellFormed J o) →
      ∃ w1, runSession J w ops = .ok w1 ∧ SessionInv J w1 := by
  induction ops with
  | nil => exact fun w h _ => ⟨w, rfl, h⟩
  | cons op rest ih =>
    intro w h hall
    have hrest : ∀ o ∈ rest, SessionOp.WellFormed J o :=
      fun o ho => hall o (List.mem_cons_of_mem _ ho)
    have hop : SessionOp.WellFormed J op := hall op (List.mem_cons_self _ _)
    cases op with
    | login u t =>
      simpa [runSession, SessionOp.apply] using ih _ (sessionInv_login J w u t hop) hrest
    | logout =>
      simpa [runSession, SessionOp.apply] using ih _ (sessionInv_logout J w) hrest
    | effect =>
      obtain ⟨w0, h0, hinv⟩ := sessionInv_effect J w h
      simpa [runSession, SessionOp.apply, h0] using ih w0 hinv hrest
    | reload =>
      obtain ⟨w0, h0, hinv⟩ := sessionInv_mount J w.storage h.2.2
      simpa [runSession, SessionOp.apply, h0] using ih w0 hinv hrest

/-! ## Claims -/

/-- C1 (as amended): the headers `api.request` sends, for a call that passes
no `headers` option (as `get` and `post` do), are determined by the durable
`token` entry alone.  With no token stored, or with the empty string stored,
the only header is the content type; with a non-empty token `t` stored the
headers are the content type and `Authorization: Bearer t`; two sessions
whose durable `token` entries agree send the same headers, whatever their
in-memory state. -/
theorem c1_request_headers_from_durable_token (J : JsonCodec) (net : Fetch) (base : JsValue)
    (endpoint : String) (options : RequestOptions) (hopt : options.headers = none) :
    (∀ w : World, List.lookup "token" w.storage = none →
      sentHeaders (api.request J net base w endpoint options).1 =
        [[("Content-Type", "application/json")]]) ∧
    (∀ w : World, List.lookup "token" w.storage = some "" →
      sentHeaders (api.request J net base w endpoint options).1 =
        [[("Content-Type", "application/json")]]) ∧
    (∀ (w : World) (t : String), t ≠ "" → List.lookup "token" w.storage = some t →
      sentHeaders (api.request J net base w endpoint options).1 =
        [[("Content-Type", "application/json"), ("Authorization", "Bearer " ++ t)]]) ∧
    (∀ w1 w2 : World, List.lookup "token" w1.storage = List.lookup "token" w2.storage →
      sentHeaders (api.request J net base w1 endpoint options).1 =
        sentHeaders (api.request J net base w2 endpoint options).1) := by
  refine ⟨?_, ?_, ?_, ?_⟩
  · intro w h
    simp [api.request, api.config, sentHeaders, hopt, api.defaultHeaders,
      Storage.getItem_of_lookup_none h, JsValue.truthy]
  · intro w h
    simp [api.request, api.config, sentHeaders, hopt, api.defaultHeaders,
      Storage.getItem_of_lookup_some h, JsValue.truthy]
  · intro w t ht h
    simp [api.request, api.config, sentHeaders, hopt, api.defaultHeaders,
      Storage.getItem_of_lookup_some h, JsValue.truthy, JsValue.toStr, ht]
  · intro w1 w2 h
    simp [api.request, api.config, sentHeaders, hopt, Storage.getItem, h]

/-- C1, witness: a `get` with the token `abc` stored. -/
theorem c1_request_headers_from_durable_token_witness :
    sentHeaders (api.request stdCodec okNet (API_BASE_URL JsValue.undefined)
        { auth := { user := JsValue.null, token := JsValue.null }, storage := [("token", "abc")] }
        "/trajets" { method := none, body := JsValue.undefined, headers := none }).1 =
      [[("Content-Type", "application/json"), ("Authorization", "Bearer abc")]] :=
  (c1_request_headers_from_durable_token stdCodec okNet (API_BASE_URL JsValue.undefined)
    "/trajets" { method := none, body := JsValue.undefined, headers := none } rfl).2.2.1
    { auth := { user := JsValue.null, token := JsValue.null }, storage := [("token", "abc")] }
    "abc" (by decide) rfl

/-- C1, counterexample: with the empty string stored under `token`, a token
string is stored and the request carries no `Authorization` header, where the
claim asks for `Bearer ` followed by the stored string. -/
theorem c1_empty_token_sends_no_authorization :
    List.lookup "token" ([("token", "")] : Storage) = some "" ∧
    sentHeaders (api.get stdCodec okNet (API_BASE_URL JsValue.undefined)
        { auth := { user := JsValue.null, token := JsValue.str "" }, storage := [("token", "")] }
        "/trajets").1 = [[("Content-Type", "application/json")]] ∧
    sentHeaders (api.get stdCodec okNet (API_BASE_URL JsValue.undefined)
        { auth := { user := JsValue.null, token := JsValue.str "" }, storage := [("token", "")] }
        "/trajets").1 ≠
      [[("Content-Type", "application/json"), ("Authorization", "Bearer " ++ "")]] := by
  decide

/-- C2 (as amended): for every identity `u` that `JSON` round-trips (its
serialisation is a non-empty text that parses back to `u`) and every
non-empty token string `t`, a reload after `login(u, t)` yields a session
whose identity is `u` and whose token is `t`. -/
theorem c2_login_survives_reload (J : JsonCodec) (w : World) (u : JsValue) (t : String)
    (ht : t ≠ "") (hne : AuthProvider.storedUser J u ≠ "")
    (hrt : J.parse (AuthProvider.storedUser J u) = .ok u) :
    AuthProvider.mount J (AuthProvider.login J w u (JsValue.str t)).storage =
      .ok { auth := { user := u, token := JsValue.str t }
            storage := (AuthProvider.login J w u (JsValue.str t)).storage } :=
  AuthProvider.mount_rehydrates J _ t (AuthProvider.storedUser J u) u
    (AuthProvider.login_lookup_token J w u (JsValue.str t)) ht
    (AuthProvider.login_lookup_user J w u (JsValue.str t)) hne hrt

/-- C2, witness: the sample identity and the token `abc`. -/
theorem c2_login_survives_reload_witness :
    AuthProvider.mount stdCodec
        (AuthProvider.login stdCodec emptyWorld sampleUser (JsValue.str "abc")).storage =
      .ok { auth := { user := sampleUser, token := JsValue.str "abc" }
            storage := (AuthProvider.login stdCodec emptyWorld sampleUser
              (JsValue.str "abc")).storage } :=
  c2_login_survives_reload stdCodec emptyWorld sampleUser "abc" (by decide) (by decide) rfl

/-- C2, counterexample: after `login(u, "")` a reload leaves the identity
absent, although `u` round-trips through `JSON`. -/
theorem c2_empty_token_not_rehydrated :
    stdCodec.parse (AuthProvider.storedUser stdCodec sampleUser) = .ok sampleUser ∧
    AuthProvider.mount stdCodec
        (AuthProvider.login stdCodec emptyWorld sampleUser (JsValue.str "")).storage =
      .ok { auth := { user := JsValue.null, token := JsValue.str "" }
            storage := (AuthProvider.login stdCodec emptyWorld sampleUser
              (JsValue.str "")).storage } :=
  ⟨rfl, rfl⟩

/-- C3: after `logout()` the in-memory identity and token are `null`, the
durable entries `user` and `token` are removed, and a reload from that storage
yields a session with identity and token both `null`. -/
theorem c3_logout_clears_session (J : JsonCodec) (w : World) :
    (AuthProvider.logout w).auth.user = JsValue.null ∧
    (AuthProvider.logout w).auth.token = JsValue.null ∧
    List.lookup "user" (AuthProvider.logout w).storage = none ∧
    List.lookup "token" (AuthProvider.logout w).storage = none ∧
    AuthProvider.mount J (AuthProvider.logout w).storage =
      .ok { auth := { user := JsValue.null, token := JsValue.null }
            storage := (AuthProvider.logout w).storage } :=
  ⟨rfl, rfl, AuthProvider.logout_lookup_user w, AuthProvider.logout_lookup_token w,
    AuthProvider.mount_no_token J _ (AuthProvider.logout_lookup_token w)⟩

/-- C4: immediately after `login(u, t)`, for an identity `u` that
`JSON.stringify` serialises to `s` and a token string `t`, the in-memory
session holds `u` and `t`, the durable entry `user` holds `s`, the durable
entry `token` holds `t`, and every other durable entry is as it was. -/
theorem c4_login_stores_both (J : JsonCodec) (w : World) (u : JsValue) (t s : String)
    (hs : J.stringify u = some s) :
    (AuthProvider.login J w u (JsValue.str t)).auth.user = u ∧
    (AuthProvider.login J w u (JsValue.str t)).auth.token = JsValue.str t ∧
    List.lookup "user" (AuthProvider.login J w u (JsValue.str t)).storage = some s ∧
    List.lookup "token" (AuthProvider.login J w u (JsValue.str t)).storage = some t ∧
    ∀ k : String, k ≠ "user" → k ≠ "token" →
      List.lookup k (AuthProvider.login J w u (JsValue.str t)).storage =
        List.lookup k w.storage := by
  refine ⟨rfl, rfl, ?_, ?_, ?_⟩
  · rw [AuthProvider.login_lookup_user]
    simp [AuthProvider.storedUser, hs]
  · rw [AuthProvider.login_lookup_token]
    simp [JsValue.toStr]
  · intro k hu ht
    exact AuthProvider.login_lookup_other J w u _ k hu ht

/-- C4, witness: the sample identity, whose serialisation is evaluated. -/
theorem c4_login_stores_both_witness :
    List.lookup "user"
        (AuthProvider.login stdCodec emptyWorld sampleUser (JsValue.str "abc")).storage =
      some "\x7b\"prenom\":\"Awa\",\"id\":7\x7d" :=
  (c4_login_stores_both stdCodec emptyWorld sampleUser "abc"
    "\x7b\"prenom\":\"Awa\",\"id\":7\x7d" rfl).2.2.1

/-- C5 (as amended): when `api.request` receives a non-success response whose
body parses as a JSON object, the thrown error's message is the string
conversion of the first truthy value among the body's `detail`, the body's
`message` and the fixed string `Erreur inconnue`.  So a `detail` that is a
non-empty string `X` is the message whatever `message` holds; a `message`
that is a non-empty string `Y` is the message when `detail` is missing or
falsy; and the fixed string is the message when both are missing or falsy. -/
theorem c5_error_message_chain (J : JsonCodec) (net : Fetch) (base : JsValue) (w : World)
    (endpoint : String) (options : RequestOptions) (r : Response)
    (kvs : List (String × JsValue))
    (hnet : net (api.url base endpoint) (api.config J w options) = .ok r)
    (hbad : r.ok = false) (hp : J.parse r.body = .ok (JsValue.obj kvs)) :
    (∀ X : String, X ≠ "" → List.lookup "detail" kvs = some (JsValue.str X) →
      (api.request J net base w endpoint options).2 =
        .error { name := "Error", message := X }) ∧
    (∀ Y : String, Y ≠ "" → ((JsValue.obj kvs).getProp "detail").truthy = false →
      List.lookup "message" kvs = some (JsValue.str Y) →
      (api.request J net base w endpoint options).2 =
        .error { name := "Error", message := Y }) ∧
    (((JsValue.obj kvs).getProp "detail").truthy = false →
      ((JsValue.obj kvs).getProp "message").truthy = false →
      (api.request J net base w endpoint options).2 =
        .error { name := "Error", message := "Erreur inconnue" }) ∧
    (api.request J net base w endpoint options).2 = .error
      { name := "Error"
        message := ((((JsValue.obj kvs).getProp "detail").or
          ((JsValue.obj kvs).getProp "message")).or (JsValue.str "Erreur inconnue")).toStr } := by
  have hmain : (api.request J net base w endpoint options).2 = .error
      { name := "Error"
        message := ((((JsValue.obj kvs).getProp "detail").or
          ((JsValue.obj kvs).getProp "message")).or (JsValue.str "Erreur inconnue")).toStr } := by
    simp [api.request, hnet, api.settle, hbad, hp]
  refine ⟨?_, ?_, ?_, hmain⟩
  · intro X hX hd
    rw [hmain]
    simp [JsValue.getProp, hd, JsValue.or, JsValue.truthy, JsValue.toStr, hX]
  · intro Y hY hd hm
    rw [hmain]
    simp [JsValue.or, hd]
    simp [JsValue.getProp, hm, JsValue.truthy, JsValue.toStr, hY]
  · intro hd hm
    rw [hmain]
    simp [JsValue.or, hd, hm, JsValue.toStr]

/-- C5, witness: status 400 with `detail` and `message` both set. -/
theorem c5_error_message_chain_witness :
    (api.request stdCodec
        (fun _ _ => .ok { status := 400, body := "\x7b\"detail\":\"X\",\"message\":\"Y\"\x7d" })
        (API_BASE_URL JsValue.undefined) emptyWorld "/reservations"
        { method := some "POST", body := JsValue.obj [], headers := none }).2 =
      .error { name := "Error", message := "X" } :=
  (c5_error_message_chain stdCodec
    (fun _ _ => .ok { status := 400, body := "\x7b\"detail\":\"X\",\"message\":\"Y\"\x7d" })
    (API_BASE_URL JsValue.undefined) emptyWorld "/reservations"
    { method := some "POST", body := JsValue.obj [], headers := none }
    { status := 400, body := "\x7b\"detail\":\"X\",\"message\":\"Y\"\x7d" }
    [("detail", JsValue.str "X"), ("message", JsValue.str "Y")] rfl rfl rfl).1 "X"
    (by decide) rfl

/-- C5, counterexample: the body has a `detail` field, the empty string, and a
`message` field; the message surfaced is the `message` field, not `detail`. -/
theorem c5_empty_detail_is_skipped :
    stdCodec.parse "\x7b\"detail\":\"\",\"message\":\"Y\"\x7d" =
      .ok (JsValue.obj [("detail", JsValue.str ""), ("message", JsValue.str "Y")]) ∧
    (api.get stdCodec
        (fun _ _ => .ok { status := 400, body := "\x7b\"detail\":\"\",\"message\":\"Y\"\x7d" })
        (API_BASE_URL JsValue.undefined) emptyWorld "/trajets").2 =
      .error { name := "Error", message := "Y" } :=
  ⟨rfl, rfl⟩

/-- C6 (as amended): for a non-success response whose body cannot be parsed as
JSON, the call fails with an error whose message is the fixed string
`Erreur réseau`, whatever the status code and the bytes of the body. -/
theorem c6_unparseable_error_body (J : JsonCodec) (net : Fetch) (base : JsValue) (w : World)
    (endpoint : String) (options : RequestOptions) (r : Response) (m : String)
    (hnet : net (api.url base endpoint) (api.config J w options) = .ok r)
    (hbad : r.ok = false) (hp : J.parse r.body = .error m) :
    (api.request J net base w endpoint options).2 =
      .error { name := "Error", message := "Erreur réseau" } := by
  simp [api.request, hnet, api.settle, hbad, hp, JsValue.getProp, JsValue.or, JsValue.truthy,
    JsValue.toStr, List.lookup]

/-- C6, witness: status 500 with an HTML body. -/
theorem c6_unparseable_error_body_witness :
    (api.request stdCodec (fun _ _ => .ok { status := 500, body := "<html>" })
        (API_BASE_URL JsValue.undefined) emptyWorld "/trajets"
        { method := none, body := JsValue.undefined, headers := none }).2 =
      .error { name := "Error", message := "Erreur réseau" } :=
  c6_unparseable_error_body stdCodec (fun _ _ => .ok { status := 500, body := "<html>" })
    (API_BASE_URL JsValue.undefined) emptyWorld "/trajets"
    { method := none, body := JsValue.undefined, headers := none }
    { status := 500, body := "<html>" } "Unexpected token" rfl rfl rfl

/-- C6, counterexample: status 500 with an HTML body fails with the message
`Erreur réseau`, which is not the constant `Erreur inconnue`. -/
theorem c6_message_is_not_erreur_inconnue :
    (api.get stdCodec (fun _ _ => .ok { status := 500, body := "<html>" })
        (API_BASE_URL JsValue.undefined) emptyWorld "/trajets").2 =
      .error { name := "Error", message := "Erreur réseau" } ∧
    ("Erreur réseau" : String) ≠ "Erreur inconnue" :=
  ⟨rfl, by decide⟩

/-- C7, the code at the failing input: a prompt answered with one space
passes the guard of `handleBookRide` (`isNaN(" ")` is false and
`parseInt(" ")` is `NaN`, which is not below 1), and the handler posts a
reservation whose seat count is `NaN`, serialised as `null`; the answer
`Infinity` is posted as well. -/
theorem c7_blank_seat_count_is_posted :
    isNaN (JsValue.str " ") = false ∧ parseInt (JsValue.str " ") = JsValue.nan ∧
    (Dashboard.handleBookRide stdCodec okNet (API_BASE_URL JsValue.undefined) emptyWorld
        sampleDashboard (JsValue.str "r1") (JsValue.str " ")).2 =
      [Effect.prompt "Combien de places souhaitez-vous réserver ?",
       Effect.fetch "http://localhost:8001/api/reservations"
         { headers := [("Content-Type", "application/json")], method := some "POST"
           body := JsValue.str "\x7b\"trajet_id\":\"r1\",\"nombre_places\":null\x7d" },
       Effect.alert "Réservation effectuée avec succès!",
       Effect.fetch "http://localhost:8001/api/trajets"
         { headers := [("Content-Type", "application/json")], method := none
           body := JsValue.undefined }] ∧
    ((Dashboard.handleBookRide stdCodec okNet (API_BASE_URL JsValue.undefined) emptyWorld
        sampleDashboard (JsValue.str "r1") (JsValue.str "Infinity")).2.any Effect.isFetch) =
      true :=
  ⟨rfl, rfl, rfl, rfl⟩

/-- C8 (as amended): when `fetch` returns a response, a non-success status
makes `api.request` fail, never resolve; a success status makes it settle as
`response.json()` does: it resolves to the parsed body when the body parses
as JSON and fails with the parser's `SyntaxError` when it does not.  `get`
and `post` are `request` with their options and settle the same way. -/
theorem c8_request_outcome (J : JsonCodec) (net : Fetch) (base : JsValue) (w : World)
    (endpoint : String) (options : RequestOptions) (r : Response)
    (hnet : net (api.url base endpoint) (api.config J w options) = .ok r) :
    (r.ok = false → ∃ e, (api.request J net base w endpoint options).2 = .error e) ∧
    (r.ok = true → ∀ v, J.parse r.body = .ok v →
      (api.request J net base w endpoint options).2 = .ok v) ∧
    (r.ok = true → ∀ m, J.parse r.body = .error m →
      (api.request J net base w endpoint options).2 =
        .error { name := "SyntaxError", message := m }) ∧
    api.get J net base w endpoint =
      api.request J net base w endpoint
        { method := none, body := JsValue.undefined, headers := none } ∧
    (∀ data, api.post J net base w endpoint data =
      api.request J net base w endpoint
        { method := some "POST", body := data, headers := none }) := by
  refine ⟨?_, ?_, ?_, rfl, fun _ => rfl⟩
  · intro hbad
    simp only [api.request, hnet, api.settle, hbad]
    cases hp : J.parse r.body with
    | error m => exact ⟨_, rfl⟩
    | ok v => cases v <;> exact ⟨_, rfl⟩
  · intro hok v hp
    simp [api.request, hnet, api.settle, hok, hp]
  · intro hok m hp
    simp [api.request, hnet, api.settle, hok, hp]

/-- C8, witness: status 404 with a JSON error body. -/
theorem c8_request_outcome_witness :
    ∃ e, (api.request stdCodec
        (fun _ _ => .ok { status := 404, body := "\x7b\"detail\":\"Trajet introuvable\"\x7d" })
        (API_BASE_URL JsValue.undefined) emptyWorld "/trajets"
        { method := none, body := JsValue.undefined, headers := none }).2 = .error e :=
  (c8_request_outcome stdCodec
    (fun _ _ => .ok { status := 404, body := "\x7b\"detail\":\"Trajet introuvable\"\x7d" })
    (API_BASE_URL JsValue.undefined) emptyWorld "/trajets"
    { method := none, body := JsValue.undefined, headers := none }
    { status := 404, body := "\x7b\"detail\":\"Trajet introuvable\"\x7d" } rfl).1 rfl

/-- C8, counterexample: a response with the success status 204 and an empty
body does not make the call resolve; it fails with a `SyntaxError`. -/
theorem c8_success_status_without_json_fails :
    Response.ok { status := 204, body := "" } = true ∧
    (api.get stdCodec (fun _ _ => .ok { status := 204, body := "" })
        (API_BASE_URL JsValue.undefined) emptyWorld "/trajets").2 =
      .error { name := "SyntaxError", message := "Unexpected token" } :=
  ⟨rfl, rfl⟩

/-- C9 (as amended): the token is present if and only if the identity is
present in every state the session store reaches, by `login`, `logout`, runs
of the effect and reloads, either from an initialisation on a durable storage
in which a present token comes with a usable `user` entry (the empty storage
is one, and so is every storage such a `login` or a `logout` leaves), or from
any state through a first call of `login` or `logout`; each `login` is given
a present identity, serialised to a non-empty text that parses to a present
identity, and a present token.  No step throws.  Only an initialisation on a
storage with a present token and no usable `user` entry is left out. -/
theorem c9_presence_agrees_when_reachable (J : JsonCodec) :
    (∀ (st : Storage) (ops : List SessionOp), Storage.Consistent J st →
      (∀ o ∈ ops, SessionOp.WellFormed J o) →
      ∃ w0 w1, AuthProvider.mount J st = .ok w0 ∧ runSession J w0 ops = .ok w1 ∧
        (w1.tokenPresent = true ↔ w1.userPresent = true)) ∧
    (∀ (w : World) (op : SessionOp) (ops : List SessionOp), op.isCall = true →
      op.WellFormed J → (∀ o ∈ ops, SessionOp.WellFormed J o) →
      ∃ w1, runSession J w (op :: ops) = .ok w1 ∧
        (w1.tokenPresent = true ↔ w1.userPresent = true)) ∧
    Storage.Consistent J [] ∧
    (∀ w : World, Storage.Consistent J (AuthProvider.logout w).storage) ∧
    (∀ (w : World) (u t : JsValue), (SessionOp.login u t).WellFormed J →
      Storage.Consistent J (AuthProvider.login J w u t).storage) := by
  refine ⟨?_, ?_, fun h => absurd h (by decide), fun w => (sessionInv_logout J w).2.2,
    fun w u t h => (sessionInv_login J w u t h).2.2⟩
  · intro st ops hst hops
    obtain ⟨w0, h0, hinv⟩ := sessionInv_mount J st hst
    obtain ⟨w1, h1, hinv1⟩ := runSession_of_sessionInv J ops w0 hinv hops
    exact ⟨w0, w1, h0, h1, by rw [hinv1.1]⟩
  · intro w op ops hcall hop hops
    have hfirst : ∃ w0, op.apply J w = .ok w0 ∧ SessionInv J w0 := by
      cases op with
      | login u t => exact ⟨_, rfl, sessionInv_login J w u t hop⟩
      | logout => exact ⟨_, rfl, sessionInv_logout J w⟩
      | effect => simp [SessionOp.isCall] at hcall
      | reload => simp [SessionOp.isCall] at hcall
    obtain ⟨w0, h0, hinv⟩ := hfirst
    obtain ⟨w1, h1, hinv1⟩ := runSession_of_sessionInv J ops w0 hinv hops
    refine ⟨w1, ?_, ?_⟩
    · simp [runSession, h0, h1]
    · rw [hinv1.1]

/-- C9, witness: from the empty storage, a login, the effect, a reload, a
logout and a reload again. -/
theorem c9_presence_agrees_when_reachable_witness :
    ∃ w0 w1, AuthProvider.mount stdCodec [] = .ok w0 ∧
      runSession stdCodec w0
        [SessionOp.login sampleUser (JsValue.str "abc"), SessionOp.effect, SessionOp.reload,
          SessionOp.logout, SessionOp.reload] = .ok w1 ∧
      (w1.tokenPresent = true ↔ w1.userPresent = true) :=
  (c9_presence_agrees_when_reachable stdCodec).1 []
    [SessionOp.login sampleUser (JsValue.str "abc"), SessionOp.effect, SessionOp.reload,
      SessionOp.logout, SessionOp.reload]
    (fun h => absurd h (by decide))
    (by
      intro o ho
      simp only [List.mem_cons, List.mem_singleton, List.mem_nil_iff, or_false] at ho
      rcases ho with h | h | h | h | h <;> subst h
      · exact ⟨rfl, rfl, by decide, sampleUser, rfl, rfl⟩
      all_goals exact True.intro)

/-- C9, counterexample: initialisation from a storage that holds a token and
no `user` entry gives a session with the token present and the identity
absent; `login` with a present identity and the empty token gives a session
with the identity present and the token absent; `login` with the identity
`null` and a token gives the token without the identity; and after `login`
with the identity `Infinity`, which is serialised as `null`, the effect leaves
the token without the identity. -/
theorem c9_token_without_identity :
    (∃ w, AuthProvider.mount stdCodec [("token", "abc")] = .ok w ∧
      w.tokenPresent = true ∧ w.userPresent = false) ∧
    (AuthProvider.login stdCodec emptyWorld sampleUser (JsValue.str "")).tokenPresent = false ∧
    (AuthProvider.login stdCodec emptyWorld sampleUser (JsValue.str "")).userPresent = true ∧
    (AuthProvider.login stdCodec emptyWorld JsValue.null (JsValue.str "abc")).tokenPresent =
      true ∧
    (AuthProvider.login stdCodec emptyWorld JsValue.null (JsValue.str "abc")).userPresent =
      false ∧
    (∃ w, runSession stdCodec emptyWorld
        [SessionOp.login (JsValue.inf false) (JsValue.str "abc"), SessionOp.effect] = .ok w ∧
      w.tokenPresent = true ∧ w.userPresent = false) :=
  ⟨⟨_, rfl, rfl, rfl⟩, rfl, rfl, rfl, rfl, ⟨_, rfl, rfl, rfl⟩⟩

/-- C10 (as amended): an initialisation that completes leaves the session's
token equal to the durable `token` entry and the storage untouched, and it is
a function of the storage alone: it issues no request.  When the token entry
is a non-empty string: a `user` entry that is a non-empty string and parses as
JSON becomes the identity; a `user` entry that is missing or empty leaves the
identity absent; a `user` entry that is non-empty and does not parse makes the
initialisation throw the parser's `SyntaxError`.  When no durable token
exists, or it is the empty string, the identity stays absent even if a `user`
entry is present. -/
theorem c10_initialisation (J : JsonCodec) (st : Storage) :
    (∀ (tok ud : String) (v : JsValue), List.lookup "token" st = some tok → tok ≠ "" →
      List.lookup "user" st = some ud → ud ≠ "" → J.parse ud = .ok v →
      AuthProvider.mount J st =
        .ok { auth := { user := v, token := JsValue.str tok }, storage := st }) ∧
    (List.lookup "token" st = some "" →
      AuthProvider.mount J st =
        .ok { auth := { user := JsValue.null, token := JsValue.str "" }, storage := st }) ∧
    (List.lookup "token" st = none →
      AuthProvider.mount J st =
        .ok { auth := { user := JsValue.null, token := JsValue.null }, storage := st }) ∧
    (∀ tok : String, List.lookup "token" st = some tok → List.lookup "user" st = none →
      AuthProvider.mount J st =
        .ok { auth := { user := JsValue.null, token := JsValue.str tok }, storage := st }) ∧
    (∀ tok : String, List.lookup "token" st = some tok → List.lookup "user" st = some "" →
      AuthProvider.mount J st =
        .ok { auth := { user := JsValue.null, token := JsValue.str tok }, storage := st }) ∧
    (∀ tok ud m : String, List.lookup "token" st = some tok → tok ≠ "" →
      List.lookup "user" st = some ud → ud ≠ "" → J.parse ud = .error m →
      AuthProvider.mount J st = .error { name := "SyntaxError", message := m }) ∧
    (∀ w : World, AuthProvider.mount J st = .ok w →
      w.auth.token = st.getItem "token" ∧ w.storage = st) := by
  refine ⟨fun tok ud v ht htne hu hune hp =>
      AuthProvider.mount_rehydrates J st tok ud v ht htne hu hune hp,
    AuthProvider.mount_empty_token J st, AuthProvider.mount_no_token J st,
    fun tok ht hu => AuthProvider.mount_missing_user J st tok ht hu,
    fun tok ht hu => AuthProvider.mount_empty_user J st tok ht hu,
    fun tok ud m ht htne hu hune hp =>
      AuthProvider.mount_unparseable_user J st tok ud m ht htne hu hune hp, ?_⟩
  intro w hw
  unfold AuthProvider.mount AuthProvider.effect AuthProvider.initial at hw
  simp only at hw
  split at hw
  · split at hw
    · split at hw
      · cases hw
        exact ⟨rfl, rfl⟩
      · cases hw
    · cases hw
      exact ⟨rfl, rfl⟩
  · cases hw
    exact ⟨rfl, rfl⟩

/-- C10, witness: a storage holding a token and a serialised identity. -/
theorem c10_initialisation_witness :
    AuthProvider.mount stdCodec
        [("token", "abc"), ("user", "\x7b\"prenom\":\"Awa\",\"id\":7\x7d")] =
      .ok { auth := { user := sampleUser, token := JsValue.str "abc" }
            storage := [("token", "abc"), ("user", "\x7b\"prenom\":\"Awa\",\"id\":7\x7d")] } :=
  (c10_initialisation stdCodec
    [("token", "abc"), ("user", "\x7b\"prenom\":\"Awa\",\"id\":7\x7d")]).1
    "abc" "\x7b\"prenom\":\"Awa\",\"id\":7\x7d" sampleUser rfl (by decide) rfl (by decide) rfl

/-- C10, counterexample: the storage holds a `token` entry, the empty string,
and a `user` entry that parses to a record; after initialisation the identity
is still absent. -/
theorem c10_empty_token_leaves_identity_absent :
    List.lookup "token"
        ([("token", ""), ("user", "\x7b\"prenom\":\"Awa\",\"id\":7\x7d")] : Storage) = some "" ∧
    stdCodec.parse "\x7b\"prenom\":\"Awa\",\"id\":7\x7d" = .ok sampleUser ∧
    AuthProvider.mount stdCodec
        [("token", ""), ("user", "\x7b\"prenom\":\"Awa\",\"id\":7\x7d")] =
      .ok { auth := { user := JsValue.null, token := JsValue.str "" }
            storage := [("token", ""), ("user", "\x7b\"prenom\":\"Awa\",\"id\":7\x7d")] } :=
  ⟨rfl, rfl, rfl⟩

theorem searchEndpoint_eq_spec (sd : SearchData) : searchEndpoint sd = specSearchPath sd := by
  have h1 : ∀ x : String, urlencode "ville_depart" ++ ("=" ++ x) = "ville_depart=" ++ x :=
    fun x => by rw [← String.append_assoc]; rfl
  have h2 : ∀ x : String, urlencode "ville_arrivee" ++ ("=" ++ x) = "ville_arrivee=" ++ x :=
    fun x => by rw [← String.append_assoc]; rfl
  have h3 : ∀ x : String, urlencode "date_depart" ++ ("=" ++ x) = "date_depart=" ++ x :=
    fun x => by rw [← String.append_assoc]; rfl
  unfold searchEndpoint specSearchPath SearchData.entries URLSearchParams.toString
  rcases Bool.eq_false_or_eq_true (sd.ville_depart != "") with a | a <;>
    rcases Bool.eq_false_or_eq_true (sd.ville_arrivee != "") with b | b <;>
    rcases Bool.eq_false_or_eq_true (sd.date_depart != "") with c | c <;>
    have a1 := a <;> have b1 := b <;> have c1 := c <;>
    simp only [bne_iff_ne, ne_eq, bne_eq_false_iff_eq] at a1 b1 c1 <;>
    simp [List.filter, JsValue.truthy, a, b, c, a1, b1, c1, h1, h2, h3, ampJoin,
      String.append_assoc]

theorem landing_searchSettle_no_fetch (l : Landing) (res : Except Thrown JsValue) :
    (Landing.searchSettle l res).2.filter Effect.isFetch = [] := by
  cases res <;> simp [Landing.searchSettle, Effect.isFetch]

theorem dashboard_searchSettle_no_fetch (d : Dashboard) (res : Except Thrown JsValue) :
    (Dashboard.searchSettle d res).2.filter Effect.isFetch = [] := by
  cases res <;> simp [Dashboard.searchSettle, Effect.isFetch]

/-- C11: `handleSearch`, in `Landing` and in `Dashboard`, issues exactly one
request, a GET (no method, no body) whose path is `/trajets?` followed by the
form-urlencoded `key=value` pairs of the non-empty fields, joined by `&` in
the order `ville_depart`, `ville_arrivee`, `date_depart`; for Dakar, Thiès,
2024-01-01 the path is the one the specification gives. -/
theorem c11_search_issues_one_get (J : JsonCodec) (net : Fetch) (base : JsValue) (w : World) :
    (∀ l : Landing, (Landing.handleSearch J net base w l).2.filter Effect.isFetch =
      [Effect.fetch (api.url base (specSearchPath l.searchData)) (api.config J w getOptions)]) ∧
    (∀ d : Dashboard, (Dashboard.handleSearch J net base w d).2.filter Effect.isFetch =
      [Effect.fetch (api.url base (specSearchPath d.searchData)) (api.config J w getOptions)]) ∧
    (api.config J w getOptions).method = none ∧
    (api.config J w getOptions).body = JsValue.undefined ∧
    specSearchPath { ville_depart := "Dakar", ville_arrivee := "Thiès",
                     date_depart := "2024-01-01" } =
      "/trajets?ville_depart=Dakar&ville_arrivee=Thi%C3%A8s&date_depart=2024-01-01" := by
  refine ⟨?_, ?_, rfl, ?_, by decide⟩
  · intro l
    simp [Landing.handleSearch, api.get, api.request, searchEndpoint_eq_spec, getOptions,
      List.filter_append, landing_searchSettle_no_fetch, Effect.isFetch]
  · intro d
    simp [Dashboard.handleSearch, api.get, api.request, searchEndpoint_eq_spec, getOptions,
      List.filter_append, dashboard_searchSettle_no_fetch, Effect.isFetch]
  · simp [api.config, getOptions, JsValue.truthy]

theorem Auth.submitSettle_no_fetch (J : JsonCodec) (app : App) (a : Auth)
    (res : Except Thrown JsValue) :
    (Auth.submitSettle J app a res).2.2.filter Effect.isFetch = [] := by
  cases res with
  | error e => simp [Auth.submitSettle, Effect.isFetch]
  | ok v => cases v <;> simp [Auth.submitSettle, Effect.isFetch]

/-- C12 (as amended): the Auth form, submitted in login mode, issues one
request, `POST /connexion`, and in registration mode `POST /inscription`; in
both modes the body is the serialisation of the whole form state, the five
fields `nom`, `prenom`, `email`, `telephone` and `mot_de_passe`. -/
theorem c12_auth_request (J : JsonCodec) (net : Fetch) (base : JsValue) (app : App) (a : Auth) :
    (Auth.handleSubmit J net base app a).2.2.filter Effect.isFetch =
      [Effect.fetch (api.url base (if a.isLogin then "/connexion" else "/inscription"))
        { headers := api.defaultHeaders (app.world.storage.getItem "token")
          method := some "POST"
          body := match J.stringify (JsValue.obj
              [("nom", JsValue.str a.formData.nom), ("prenom", JsValue.str a.formData.prenom),
               ("email", JsValue.str a.formData.email),
               ("telephone", JsValue.str a.formData.telephone),
               ("mot_de_passe", JsValue.str a.formData.mot_de_passe)]) with
            | some text => JsValue.str text
            | none => JsValue.undefined }] := by
  simp [Auth.handleSubmit, api.post, api.request, List.filter_append, Auth.submitSettle_no_fetch,
    Effect.isFetch, Auth.endpoint, api.config, FormData.toJs, JsValue.truthy,
    JsValue.typeofObject]

/-- C12, counterexample: in login mode, with only the email and the password
typed, the body posted to `/connexion` has five fields, not the two fields
`email` and `mot_de_passe`. -/
theorem c12_login_posts_five_fields :
    (Auth.handleSubmit stdCodec okNet (API_BASE_URL JsValue.undefined) sampleApp
        filledAuth).2.2.filter Effect.isFetch =
      [Effect.fetch "http://localhost:8001/api/connexion"
        { headers := [("Content-Type", "application/json")], method := some "POST"
          body := JsValue.str
            "\x7b\"nom\":\"\",\"prenom\":\"\",\"email\":\"awa@afrikar.sn\",\"telephone\":\"\",\"mot_de_passe\":\"secret\"\x7d" }] ∧
    ("\x7b\"nom\":\"\",\"prenom\":\"\",\"email\":\"awa@afrikar.sn\",\"telephone\":\"\",\"mot_de_passe\":\"secret\"\x7d" : String) ≠
      "\x7b\"email\":\"awa@afrikar.sn\",\"mot_de_passe\":\"secret\"\x7d" :=
  ⟨rfl, by decide⟩

/-- C13: `post(path, body)` with an object body that `JSON.stringify`
serialises to `text` issues one request with method `POST`, the body `text`
and the header `Content-Type: application/json`; `get(path)` issues one
request with no body, no method (a GET) and the same headers. -/
theorem c13_post_and_get_requests (J : JsonCodec) (net : Fetch) (base : JsValue) (w : World)
    (path : String) (kvs : List (String × JsValue)) (text : String)
    (hs : J.stringify (JsValue.obj kvs) = some text) :
    (api.post J net base w path (JsValue.obj kvs)).1 =
      [Effect.fetch (api.url base path)
        { headers := api.defaultHeaders (w.storage.getItem "token"), method := some "POST"
          body := JsValue.str text }] ∧
    (api.get J net base w path).1 =
      [Effect.fetch (api.url base path)
        { headers := api.defaultHeaders (w.storage.getItem "token"), method := none
          body := JsValue.undefined }] ∧
    ("Content-Type", "application/json") ∈ api.defaultHeaders (w.storage.getItem "token") := by
  refine ⟨?_, ?_, ?_⟩
  · simp [api.post, api.request, api.config, JsValue.truthy, JsValue.typeofObject, hs]
  · simp [api.get, api.request, api.config, JsValue.truthy]
  · simp [api.defaultHeaders]

/-- C13, witness: posting a reservation with a token stored. -/
theorem c13_post_and_get_requests_witness :
    (api.post stdCodec okNet (API_BASE_URL JsValue.undefined)
        { auth := { user := JsValue.null, token := JsValue.null }, storage := [("token", "abc")] }
        "/reservations" (JsValue.obj [("trajet_id", JsValue.str "r1"),
          ("nombre_places", JsValue.num 2)])).1 =
      [Effect.fetch "http://localhost:8001/api/reservations"
        { headers := [("Content-Type", "application/json"), ("Authorization", "Bearer abc")]
          method := some "POST"
          body := JsValue.str "\x7b\"trajet_id\":\"r1\",\"nombre_places\":2\x7d" }] :=
  (c13_post_and_get_requests stdCodec okNet (API_BASE_URL JsValue.undefined)
    { auth := { user := JsValue.null, token := JsValue.null }, storage := [("token", "abc")] }
    "/reservations" [("trajet_id", JsValue.str "r1"), ("nombre_places", JsValue.num 2)]
    "\x7b\"trajet_id\":\"r1\",\"nombre_places\":2\x7d" rfl).1

/-- C14 (as amended): `Auth.handleSubmit` populates the session store and
switches the view to `dashboard` exactly when the auth request resolves to a
response that is not `null`: then the session is the one `login(response.user,
response.access_token)` leaves and the current view is `dashboard`.  When the
request fails, or resolves to `null`, the session (in memory and durable
storage) and the current view are unchanged.  In every case the loading flag
is false afterwards. -/
theorem c14_auth_submit_outcome (J : JsonCodec) (net : Fetch) (base : JsValue) (app : App)
    (a : Auth) :
    (∀ response : JsValue,
      (api.post J net base app.world (Auth.endpoint a) a.formData.toJs).2 = .ok response →
      response ≠ JsValue.null → response ≠ JsValue.undefined →
      (Auth.handleSubmit J net base app a).1 =
        { currentView := "dashboard"
          world := AuthProvider.login J app.world (response.getProp "user")
            (response.getProp "access_token") }) ∧
    ((api.post J net base app.world (Auth.endpoint a) a.formData.toJs).2 = .ok JsValue.null →
      (Auth.handleSubmit J net base app a).1 = app) ∧
    (∀ e : Thrown,
      (api.post J net base app.world (Auth.endpoint a) a.formData.toJs).2 = .error e →
      (Auth.handleSubmit J net base app a).1 = app) ∧
    (Auth.handleSubmit J net base app a).2.1.loading = false := by
  refine ⟨?_, ?_, ?_, ?_⟩
  · intro response h hn hu
    simp only [Auth.handleSubmit, h]
    cases response <;> simp_all [Auth.submitSettle]
  · intro h
    simp [Auth.handleSubmit, h, Auth.submitSettle]
  · intro e h
    simp [Auth.handleSubmit, h, Auth.submitSettle]
  · simp only [Auth.handleSubmit]
    cases (api.post J net base app.world (Auth.endpoint a) a.formData.toJs).2 with
    | error e => simp [Auth.submitSettle]
    | ok v => cases v <;> simp [Auth.submitSettle]

/-- C14, witness: the backend answers a login with a user and a token. -/
theorem c14_auth_submit_outcome_witness :
    (Auth.handleSubmit stdCodec
        (fun _ _ => .ok { status := 200
                          body := "\x7b\"user\":\x7b\"prenom\":\"Awa\",\"id\":7\x7d,\"access_token\":\"abc\"\x7d" })
        (API_BASE_URL JsValue.undefined) sampleApp filledAuth).1 =
      { currentView := "dashboard"
        world := AuthProvider.login stdCodec emptyWorld sampleUser (JsValue.str "abc") } :=
  (c14_auth_submit_outcome stdCodec
    (fun _ _ => .ok { status := 200
                      body := "\x7b\"user\":\x7b\"prenom\":\"Awa\",\"id\":7\x7d,\"access_token\":\"abc\"\x7d" })
    (API_BASE_URL JsValue.undefined) sampleApp filledAuth).1
    (JsValue.obj [("user", sampleUser), ("access_token", JsValue.str "abc")]) rfl
    (fun h => JsValue.noConfusion h) (fun h => JsValue.noConfusion h)

/-- C14, counterexample: the auth request succeeds with status 200 and the
JSON body `null`; the handler shows an error, the session is not populated
and the view stays on `auth`. -/
theorem c14_null_response_is_not_a_login :
    (api.post stdCodec (fun _ _ => .ok { status := 200, body := "null" })
        (API_BASE_URL JsValue.undefined) sampleApp.world (Auth.endpoint filledAuth)
        filledAuth.formData.toJs).2 = .ok JsValue.null ∧
    (Auth.handleSubmit stdCodec (fun _ _ => .ok { status := 200, body := "null" })
        (API_BASE_URL JsValue.undefined) sampleApp filledAuth).1 = sampleApp ∧
    sampleApp.currentView = "auth" ∧
    sampleApp.world.userPresent = false ∧
    ((Auth.handleSubmit stdCodec (fun _ _ => .ok { status := 200, body := "null" })
        (API_BASE_URL JsValue.undefined) sampleApp filledAuth).2.2.any Effect.isAlert) = true :=
  ⟨rfl, rfl, rfl, rfl, rfl⟩

/-! ## Requests in flight: the invariants -/

theorem Dashboard.loadRides_loading (J : JsonCodec) (net : Fetch) (base : JsValue) (w : World)
    (d : Dashboard) : (Dashboard.loadRides J net base w d).1.loading = d.loading := by
  simp only [Dashboard.loadRides]
  split <;> rfl

theorem Dashboard.bookSettle_loading (J : JsonCodec) (net : Fetch) (base : JsValue) (w : World)
    (d : Dashboard) (res : Except Thrown JsValue) :
    (Dashboard.bookSettle J net base w d res).1.loading = d.loading := by
  cases res with
  | error e => rfl
  | ok v => simp [Dashboard.bookSettle, Dashboard.loadRides_loading]

theorem Dashboard.searchSettle_loading (d : Dashboard) (res : Except Thrown JsValue) :
    (Dashboard.searchSettle d res).1.loading = false := by
  cases res <;> rfl

theorem Dashboard.createSettle_loading (J : JsonCodec) (net : Fetch) (base : JsValue)
    (w : World) (d : Dashboard) (res : Except Thrown JsValue) :
    (Dashboard.createSettle J net base w d res).1.loading = false := by
  cases res <;> rfl

theorem DashRun.step_inv (J : JsonCodec) (net : Fetch) (base : JsValue) (w : World)
    (r r1 : DashRun) (e : DashEvent) (h : r.Inv) (hs : r.step J net base w e = some r1) :
    r1.Inv := by
  have hsc : DashAction.search ≠ DashAction.create := by decide
  have hcs : DashAction.create ≠ DashAction.search := by decide
  have hsb : DashAction.search ≠ DashAction.book := by decide
  have hcb : DashAction.create ≠ DashAction.book := by decide
  unfold DashRun.Inv at h ⊢
  cases e with
  | submitSearch =>
    simp only [DashRun.step, Dashboard.submitDisabled] at hs
    split at hs
    · rename_i hg
      simp only [Bool.and_eq_true, Bool.not_eq_true', beq_iff_eq] at hg
      cases hs
      have h0 : r.pending.count DashAction.search + r.pending.count DashAction.create = 0 := by
        rw [h, hg.2]
        rfl
      show List.count DashAction.search (DashAction.search :: r.pending) +
        List.count DashAction.create (DashAction.search :: r.pending) = 1
      rw [List.count_cons_self, List.count_cons_of_ne hcs]
      omega
    · cases hs
  | settleSearch res =>
    simp only [DashRun.step] at hs
    split at hs
    · rename_i hm
      cases hs
      have hpos := List.count_pos_iff.mpr hm
      simp only [Dashboard.searchSettle_loading, List.count_erase_self,
        List.count_erase_of_ne hcs]
      split at h <;> simp <;> omega
    · cases hs
  | submitCreate =>
    simp only [DashRun.step, Dashboard.submitDisabled] at hs
    split at hs
    · rename_i hg
      simp only [Bool.and_eq_true, Bool.not_eq_true', beq_iff_eq] at hg
      cases hs
      have h0 : r.pending.count DashAction.search + r.pending.count DashAction.create = 0 := by
        rw [h, hg.2]
        rfl
      show List.count DashAction.search (DashAction.create :: r.pending) +
        List.count DashAction.create (DashAction.create :: r.pending) = 1
      rw [List.count_cons_self, List.count_cons_of_ne hsc]
      omega
    · cases hs
  | settleCreate res =>
    simp only [DashRun.step] at hs
    split at hs
    · rename_i hm
      cases hs
      have hpos := List.count_pos_iff.mpr hm
      simp only [Dashboard.createSettle_loading, List.count_erase_self,
        List.count_erase_of_ne hsc]
      split at h <;> simp <;> omega
    · cases hs
  | book places =>
    simp only [DashRun.step] at hs
    split at hs
    · split at hs
      · cases hs
        simpa [List.count_cons_of_ne hsb, List.count_cons_of_ne hcb] using h
      · cases hs
        exact h
    · cases hs
  | settleBook res =>
    simp only [DashRun.step] at hs
    split at hs
    · cases hs
      simpa [Dashboard.bookSettle_loading, List.count_erase_of_ne hsb,
        List.count_erase_of_ne hcb] using h
    · cases hs
  | setActiveTab tab =>
    cases hs
    exact h
  | setSearchData sd =>
    cases hs
    exact h
  | setRideData rd =>
    cases hs
    exact h

theorem DashRun.run_inv (J : JsonCodec) (net : Fetch) (base : JsValue) (w : World)
    (events : List DashEvent) :
    ∀ r r1 : DashRun, r.Inv → DashRun.run J net base w r events = some r1 → r1.Inv := by
  induction events with
  | nil =>
    intro r r1 h hr
    cases hr
    exact h
  | cons e es ih =>
    intro r r1 h hr
    simp only [DashRun.run] at hr
    cases hstep : r.step J net base w e with
    | none => simp [hstep] at hr
    | some r2 =>
      simp only [hstep] at hr
      exact ih r2 r1 (DashRun.step_inv J net base w r r2 e h hstep) hr

theorem landingStep_inv (r r1 : FormRun Landing) (e : FormEvent Landing)
    (h : formInv r.view.loading r.pending) (hs : landingStep r e = some r1) :
    formInv r1.view.loading r1.pending := by
  unfold formInv at h ⊢
  cases e with
  | submit =>
    simp only [landingStep, Landing.submitDisabled] at hs
    split at hs
    · cases hs
    · rename_i hg
      cases hs
      simp only [Bool.not_eq_true] at hg
      simp only [hg] at h
      simp [Landing.searchSubmit, h]
  | settle res =>
    simp only [landingStep] at hs
    split at hs
    · cases hs
    · rename_i hp
      cases hs
      have hl : (Landing.searchSettle r.view res).1.loading = false := by cases res <;> rfl
      simp only [hl]
      split at h <;> simp <;> omega
  | edit f =>
    cases hs
    exact h

theorem landingRun_inv (events : List (FormEvent Landing)) :
    ∀ r r1 : FormRun Landing, formInv r.view.loading r.pending →
      landingRun r events = some r1 → formInv r1.view.loading r1.pending := by
  induction events with
  | nil =>
    intro r r1 h hr
    cases hr
    exact h
  | cons e es ih =>
    intro r r1 h hr
    simp only [landingRun] at hr
    cases hstep : landingStep r e with
    | none => simp [hstep] at hr
    | some r2 =>
      simp only [hstep] at hr
      exact ih r2 r1 (landingStep_inv r r2 e h hstep) hr

theorem authStep_inv (J : JsonCodec) (app : App) (r r1 : FormRun Auth) (e : FormEvent Auth)
    (h : formInv r.view.loading r.pending) (hs : authStep J app r e = some r1) :
    formInv r1.view.loading r1.pending := by
  unfold formInv at h ⊢
  cases e with
  | submit =>
    simp only [authStep, Auth.submitDisabled] at hs
    split at hs
    · cases hs
    · rename_i hg
      cases hs
      simp only [Bool.not_eq_true] at hg
      simp only [hg] at h
      simp [Auth.submitBegin, h]
  | settle res =>
    simp only [authStep] at hs
    split at hs
    · cases hs
    · rename_i hp
      cases hs
      have hl : (Auth.submitSettle J app r.view res).2.1.loading = false := by
        cases res with
        | error e => rfl
        | ok v => cases v <;> rfl
      simp only [hl]
      split at h <;> simp <;> omega
  | edit f =>
    cases hs
    exact h

theorem authRun_inv (J : JsonCodec) (app : App) (events : List (FormEvent Auth)) :
    ∀ r r1 : FormRun Auth, formInv r.view.loading r.pending →
      authRun J app r events = some r1 → formInv r1.view.loading r1.pending := by
  induction events with
  | nil =>
    intro r r1 h hr
    cases hr
    exact h
  | cons e es ih =>
    intro r r1 h hr
    simp only [authRun] at hr
    cases hstep : authStep J app r e with
    | none => simp [hstep] at hr
    | some r2 =>
      simp only [hstep] at hr
      exact ih r2 r1 (authStep_inv J app r r2 e h hstep) hr

/-- The handlers that submit a form guard their request with the loading
flag: in a mounted view (search and create ride in the dashboard, search on
the landing page, the authentication form) the flag is raised exactly while
such a request is in flight, and while it is raised the form cannot be
submitted, so a second request is never issued while a prior one is in
flight.  In the dashboard the two forms share the flag, so at most one of
their requests is in flight at a time. -/
theorem form_requests_guarded (J : JsonCodec) (net : Fetch) (base : JsValue) (w : World)
    (app : App) :
    (∀ (d0 : Dashboard) (events : List DashEvent) (r : DashRun), d0.loading = false →
      DashRun.run J net base w { view := d0, pending := [] } events = some r →
      r.pending.count DashAction.search + r.pending.count DashAction.create ≤ 1 ∧
      (r.view.loading = true ↔
        DashAction.search ∈ r.pending ∨ DashAction.create ∈ r.pending) ∧
      (r.view.loading = true →
        r.step J net base w DashEvent.submitSearch = none ∧
        r.step J net base w DashEvent.submitCreate = none)) ∧
    (∀ (l0 : Landing) (events : List (FormEvent Landing)) (r : FormRun Landing),
      l0.loading = false → landingRun { view := l0, pending := 0 } events = some r →
      r.pending ≤ 1 ∧ (r.view.loading = true ↔ r.pending = 1) ∧
      (r.view.loading = true → landingStep r FormEvent.submit = none)) ∧
    (∀ (a0 : Auth) (events : List (FormEvent Auth)) (r : FormRun Auth),
      a0.loading = false → authRun J app { view := a0, pending := 0 } events = some r →
      r.pending ≤ 1 ∧ (r.view.loading = true ↔ r.pending = 1) ∧
      (r.view.loading = true → authStep J app r FormEvent.submit = none)) := by
  refine ⟨?_, ?_, ?_⟩
  · intro d0 events r h0 hrun
    have hinv : r.Inv := by
      refine DashRun.run_inv J net base w events _ r ?_ hrun
      simp [DashRun.Inv, h0]
    unfold DashRun.Inv at hinv
    have hs : 0 < List.count DashAction.search r.pending ↔ DashAction.search ∈ r.pending :=
      List.count_pos_iff
    have hc : 0 < List.count DashAction.create r.pending ↔ DashAction.create ∈ r.pending :=
      List.count_pos_iff
    refine ⟨?_, ?_, ?_⟩
    · split at hinv <;> omega
    · constructor
      · intro hl
        rw [hl] at hinv
        simp only [if_true] at hinv
        by_cases h1 : 0 < List.count DashAction.search r.pending
        · exact Or.inl (hs.mp h1)
        · exact Or.inr (hc.mp (by omega))
      · intro hm
        cases hl : r.view.loading with
        | true => rfl
        | false =>
          rw [hl] at hinv
          rcases hm with hm | hm
          · have := hs.mpr hm
            simp at hinv
            omega
          · have := hc.mpr hm
            simp at hinv
            omega
    · intro hl
      simp [DashRun.step, Dashboard.submitDisabled, hl]
  · intro l0 events r h0 hrun
    have hinv : formInv r.view.loading r.pending := by
      refine landingRun_inv events _ r ?_ hrun
      simp [formInv, h0]
    unfold formInv at hinv
    refine ⟨?_, ?_, ?_⟩
    · split at hinv <;> omega
    · cases hl : r.view.loading <;> simp [hl] at hinv ⊢ <;> omega
    · intro hl
      simp [landingStep, Landing.submitDisabled, hl]
  · intro a0 events r h0 hrun
    have hinv : formInv r.view.loading r.pending := by
      refine authRun_inv J app events _ r ?_ hrun
      simp [formInv, h0]
    unfold formInv at hinv
    refine ⟨?_, ?_, ?_⟩
    · split at hinv <;> omega
    · cases hl : r.view.loading <;> simp [hl] at hinv ⊢ <;> omega
    · intro hl
      simp [authStep, Auth.submitDisabled, hl]

/-- An instance of the guard: in the dashboard a search is submitted, the tab
is changed, the search settles and a ride is submitted. -/
theorem form_requests_guarded_example :
    ∃ r, DashRun.run stdCodec okNet (API_BASE_URL JsValue.undefined) emptyWorld
        { view := sampleDashboard, pending := [] }
        [DashEvent.submitSearch, DashEvent.setActiveTab "create",
          DashEvent.settleSearch (.ok (JsValue.arr [])), DashEvent.submitCreate] = some r ∧
      r.pending.count DashAction.search + r.pending.count DashAction.create ≤ 1 :=
  ⟨_, rfl, ((form_requests_guarded stdCodec okNet (API_BASE_URL JsValue.undefined)
    emptyWorld sampleApp).1 sampleDashboard
    [DashEvent.submitSearch, DashEvent.setActiveTab "create",
      DashEvent.settleSearch (.ok (JsValue.arr [])), DashEvent.submitCreate] _ rfl rfl).1⟩

/-- C15, the code at the failing input: on a mounted dashboard two bookings
in a row, each answered with `1`, leave two booking requests in flight, the
loading flag never raised; each click is a POST that `handleBookRide` issues,
and it leaves the flag down.  On the same dashboard a second search cannot be
submitted while the first is in flight. -/
theorem c15_two_bookings_in_flight :
    (∃ r, DashRun.run stdCodec okNet (API_BASE_URL JsValue.undefined) emptyWorld
        { view := sampleDashboard, pending := [] }
        [DashEvent.book (JsValue.str "1"), DashEvent.book (JsValue.str "1")] = some r ∧
      r.pending.count DashAction.book = 2 ∧ r.view.loading = false) ∧
    ((Dashboard.handleBookRide stdCodec okNet (API_BASE_URL JsValue.undefined) emptyWorld
        sampleDashboard (JsValue.str "r1") (JsValue.str "1")).2.filter Effect.isPost).length = 1 ∧
    (Dashboard.handleBookRide stdCodec okNet (API_BASE_URL JsValue.undefined) emptyWorld
        sampleDashboard (JsValue.str "r1") (JsValue.str "1")).1.loading = false ∧
    (DashRun.run stdCodec okNet (API_BASE_URL JsValue.undefined) emptyWorld
        { view := sampleDashboard, pending := [] }
        [DashEvent.submitSearch, DashEvent.submitSearch]).isNone = true :=
  ⟨⟨_, rfl, rfl, rfl⟩, rfl, rfl, rfl⟩

/-! ## Numbers -/

theorem floorLog2Fuel_le (fuel : Nat) : ∀ m k : Nat, m < 2 ^ (k + 1) → floorLog2Fuel fuel m ≤ k := by
  induction fuel with
  | zero => intro m k _; simp [floorLog2Fuel]
  | succ f ih =>
    intro m k h
    simp only [floorLog2Fuel]
    split
    · omega
    · rename_i h2
      cases k with
      | zero => simp at h; omega
      | succ k =>
        have : m / 2 < 2 ^ (k + 1) := by
          rw [Nat.div_lt_iff_lt_mul (by decide)]
          rw [Nat.pow_succ] at h
          exact h
        have := ih (m / 2) k this
        omega

theorem numberOfNat_of_le (m : Nat) (h : m ≤ 2 ^ 53) :
    numberOfNat false m = JsValue.num (m : Int) := by
  have hr : roundToDouble m = m := by
    rcases Nat.lt_or_ge m (2 ^ 53) with h1 | h1
    · unfold roundToDouble
      rw [if_pos h1]
    · have : m = 2 ^ 53 := Nat.le_antisymm h h1
      subst this
      decide
  have hl : floorLog2 m ≤ 53 := by
    apply floorLog2Fuel_le
    calc m ≤ 2 ^ 53 := h
      _ < 2 ^ (53 + 1) := by decide
  have hlt : ¬ 1024 ≤ floorLog2 m := by omega
  simp [numberOfNat, hr, hlt]

/-- C16 (as amended): for a booking whose ride has the price per seat `p` and
whose seat count is `n`, non-negative integers with `p * n` at most `2^53`,
the total displayed in the bookings tab is the number `p * n`, written in
decimal.  (A larger product is rounded to a double.) -/
theorem c16_booking_total (J : JsonCodec) (bk tr : List (String × JsValue)) (p n : Nat)
    (ht : List.lookup "trajet" bk = some (JsValue.obj tr))
    (hp : List.lookup "prix_par_place" tr = some (JsValue.num p))
    (hn : List.lookup "nombre_places" bk = some (JsValue.num n))
    (hb : p * n ≤ 2 ^ 53) :
    Dashboard.bookingTotal J (JsValue.obj bk) = .ok (some (JsValue.num ((p * n : Nat) : Int))) ∧
    (JsValue.num ((p * n : Nat) : Int)).toStr = toString (p * n) := by
  have hsign : decide ((p : Int) * (n : Int) < 0) = false := by
    have : (0 : Int) ≤ (p : Int) * (n : Int) := by positivity
    simp
    omega
  have habs : ((p : Int) * (n : Int)).natAbs = p * n := by
    simp [Int.natAbs_mul]
  refine ⟨?_, rfl⟩
  simp only [Dashboard.bookingTotal, JsValue.getProp, ht, hp, hn, Option.getD, jsMul, toNumber,
    mulNumbers, hsign, habs]
  rw [numberOfNat_of_le _ hb]

/-- C16, witness: two seats at 1500. -/
theorem c16_booking_total_witness :
    Dashboard.bookingTotal stdCodec (sampleBooking 1500 2) =
      .ok (some (JsValue.num ((1500 * 2 : Nat) : Int))) :=
  (c16_booking_total stdCodec
    [("id", JsValue.str "b1"),
      ("trajet", JsValue.obj [("ville_depart", JsValue.str "Dakar"),
        ("prix_par_place", JsValue.num 1500)]),
      ("nombre_places", JsValue.num 2), ("statut", JsValue.str "confirmee")]
    [("ville_depart", JsValue.str "Dakar"), ("prix_par_place", JsValue.num 1500)]
    1500 2 rfl rfl rfl (by decide)).1

/-- C16, counterexample: the price `2^53 - 1` and three seats, non-negative
integers, give the displayed total 27021597764222972, which is not their
product 27021597764222973. -/
theorem c16_large_total_is_rounded :
    Dashboard.bookingTotal stdCodec (sampleBooking 9007199254740991 3) =
      .ok (some (JsValue.num 27021597764222972)) ∧
    (9007199254740991 * 3 : Int) = 27021597764222973 ∧
    (27021597764222972 : Int) ≠ 27021597764222973 :=
  ⟨rfl, by decide, by decide⟩

/-- C17: after `handleSearch`, in `Landing` and in `Dashboard`, the displayed
ride list is the whole response when the request succeeded and is the prior
list when it failed, and the loading flag is false in both cases. -/
theorem c17_search_replaces_rides (J : JsonCodec) (net : Fetch) (base : JsValue) (w : World) :
    (∀ (l : Landing) (response : JsValue),
      (api.get J net base w (searchEndpoint l.searchData)).2 = .ok response →
      (Landing.handleSearch J net base w l).1.rides = response ∧
      (Landing.handleSearch J net base w l).1.loading = false) ∧
    (∀ (l : Landing) (e : Thrown),
      (api.get J net base w (searchEndpoint l.searchData)).2 = .error e →
      (Landing.handleSearch J net base w l).1.rides = l.rides ∧
      (Landing.handleSearch J net base w l).1.loading = false) ∧
    (∀ (d : Dashboard) (response : JsValue),
      (api.get J net base w (searchEndpoint d.searchData)).2 = .ok response →
      (Dashboard.handleSearch J net base w d).1.rides = response ∧
      (Dashboard.handleSearch J net base w d).1.loading = false) ∧
    (∀ (d : Dashboard) (e : Thrown),
      (api.get J net base w (searchEndpoint d.searchData)).2 = .error e →
      (Dashboard.handleSearch J net base w d).1.rides = d.rides ∧
      (Dashboard.handleSearch J net base w d).1.loading = false) := by
  refine ⟨?_, ?_, ?_, ?_⟩
  · intro l response h
    simp [Landing.handleSearch, h, Landing.searchSettle]
  · intro l e h
    simp [Landing.handleSearch, h, Landing.searchSettle, Landing.searchSubmit]
  · intro d response h
    simp [Dashboard.handleSearch, h, Dashboard.searchSettle]
  · intro d e h
    simp [Dashboard.handleSearch, h, Dashboard.searchSettle, Dashboard.searchSubmit]

/-- C17, witness: a search on the landing page answered with seven rides
shows the seven. -/
theorem c17_search_replaces_rides_witness :
    (Landing.handleSearch stdCodec (fun _ _ => .ok { status := 200, body := "[1,2,3,4,5,6,7]" })
        (API_BASE_URL JsValue.undefined) emptyWorld sampleLanding).1.rides =
      JsValue.arr [JsValue.num 1, JsValue.num 2, JsValue.num 3, JsValue.num 4, JsValue.num 5,
        JsValue.num 6, JsValue.num 7] :=
  ((c17_search_replaces_rides stdCodec
    (fun _ _ => .ok { status := 200, body := "[1,2,3,4,5,6,7]" })
    (API_BASE_URL JsValue.undefined) emptyWorld).1 sampleLanding _ rfl).1

/-- C18: when `GET /trajets` answers with the array `r`, the initial
`loadRides` of the landing page sets the displayed rides to the first six
elements of `r` in their order, which is all of `r` when it has fewer than
six; the length is `min 6 |r|`. -/
theorem c18_landing_shows_first_six (J : JsonCodec) (net : Fetch) (base : JsValue) (w : World)
    (l : Landing) (r : List JsValue)
    (h : (api.get J net base w "/trajets").2 = .ok (JsValue.arr r)) :
    (Landing.loadRides J net base w l).1.rides = JsValue.arr (r.take 6) ∧
    (r.take 6).length = min 6 r.length ∧
    (r.length < 6 → r.take 6 = r) := by
  refine ⟨?_, List.length_take 6 r, fun hlt => List.take_of_length_le (by omega)⟩
  simp [Landing.loadRides, h, Landing.sliceSix]

/-- C18, witness: seven rides are answered, six are shown. -/
theorem c18_landing_shows_first_six_witness :
    (Landing.loadRides stdCodec (fun _ _ => .ok { status := 200, body := "[1,2,3,4,5,6,7]" })
        (API_BASE_URL JsValue.undefined) emptyWorld sampleLanding).1.rides =
      JsValue.arr [JsValue.num 1, JsValue.num 2, JsValue.num 3, JsValue.num 4, JsValue.num 5,
        JsValue.num 6] :=
  (c18_landing_shows_first_six stdCodec
    (fun _ _ => .ok { status := 200, body := "[1,2,3,4,5,6,7]" })
    (API_BASE_URL JsValue.undefined) emptyWorld sampleLanding _ rfl).1

/-- C20: `logout()` changes only the session: the identity and the token
become `null` and the durable entries `user` and `token` are removed, while
every other durable entry and the current view of the root are as they were,
whatever the view.  A user who logs out on `dashboard` stays on `dashboard`. -/
theorem c20_logout_keeps_view (app : App) :
    (App.logout app).currentView = app.currentView ∧
    (App.logout app).world.auth.user = JsValue.null ∧
    (App.logout app).world.auth.token = JsValue.null ∧
    List.lookup "user" (App.logout app).world.storage = none ∧
    List.lookup "token" (App.logout app).world.storage = none ∧
    (∀ k : String, k ≠ "user" → k ≠ "token" →
      List.lookup k (App.logout app).world.storage = List.lookup k app.world.storage) :=
  ⟨rfl, rfl, rfl, AuthProvider.logout_lookup_user app.world,
    AuthProvider.logout_lookup_token app.world,
    fun k hu ht => AuthProvider.logout_lookup_other app.world k hu ht⟩

/-- C20, witness: a logout on the dashboard, with a third entry in the
durable storage, keeps that entry. -/
theorem c20_logout_keeps_view_witness :
    List.lookup "langue" (App.logout
        { currentView := "dashboard"
          world := { auth := { user := sampleUser, token := JsValue.str "abc" }
                     storage := [("langue", "fr"), ("user", "\x7b\x7d"), ("token", "abc")] }
        }).world.storage =
      List.lookup "langue" [("langue", "fr"), ("user", "\x7b\x7d"), ("token", "abc")] :=
  (c20_logout_keeps_view
    { currentView := "dashboard"
      world := { auth := { user := sampleUser, token := JsValue.str "abc" }
                 storage := [("langue", "fr"), ("user", "\x7b\x7d"), ("token", "abc")] }
    }).2.2.2.2.2 "langue" (by decide) (by decide)

/-! ## Decimal strings read back as numbers -/

theorem isRadixDigit_ten_iff (c : Char) :
    isRadixDigit 10 c = true ↔ 48 ≤ c.toNat ∧ c.toNat ≤ 57 := by
  unfold isRadixDigit digitValue
  simp only [Option.isSome_iff_exists]
  constructor
  · rintro ⟨v, hv⟩
    by_contra hc
    have h48 : ¬ (48 ≤ c.toNat ∧ c.toNat ≤ 57) := hc
    simp only [Bool.and_eq_true, decide_eq_true_eq, h48, if_false] at hv
    split at hv
    · split at hv
      · omega
      · cases hv
    · split at hv
      · split at hv
        · omega
        · cases hv
      · simp at hv
  · rintro ⟨h1, h2⟩
    refine ⟨c.toNat - 48, ?_⟩
    simp only [Bool.and_eq_true, decide_eq_true_eq, h1, h2, and_self, if_true]
    rw [if_pos (by omega)]

theorem digit_cases (c : Char) (h : isRadixDigit 10 c = true) :
    c = '0' ∨ c = '1' ∨ c = '2' ∨ c = '3' ∨ c = '4' ∨ c = '5' ∨ c = '6' ∨ c = '7' ∨
      c = '8' ∨ c = '9' := by
  obtain ⟨h1, h2⟩ := (isRadixDigit_ten_iff c).mp h
  have hc : Char.ofNat c.toNat = c := Char.ofNat_toNat c
  generalize c.toNat = n at h1 h2 hc
  subst hc
  interval_cases n <;> decide

theorem digitValue_digitChar (k : Nat) (h : k < 10) : digitValue 10 (Nat.digitChar k) = some k := by
  interval_cases k <;> rfl

theorem digitsValue_append_singleton (r : Nat) (pre : List Char) (c : Char) :
    digitsValue r (pre ++ [c]) = digitsValue r pre * r + (digitValue r c).getD 0 := by
  simp [digitsValue, List.foldl_append]

theorem toDigitsCore_spec (fuel : Nat) :
    ∀ (n : Nat) (ds : List Char), n < fuel →
      ∃ pre : List Char, Nat.toDigitsCore 10 fuel n ds = pre ++ ds ∧ pre ≠ [] ∧
        (∀ c ∈ pre, isRadixDigit 10 c = true) ∧ digitsValue 10 pre = n := by
  induction fuel with
  | zero => intro n ds h; omega
  | succ f ih =>
    intro n ds h
    have hd : digitValue 10 (Nat.digitChar (n % 10)) = some (n % 10) :=
      digitValue_digitChar _ (Nat.mod_lt _ (by decide))
    have hdigit : isRadixDigit 10 (Nat.digitChar (n % 10)) = true := by
      simp [isRadixDigit, hd]
    simp only [Nat.toDigitsCore]
    split
    · rename_i h0
      refine ⟨[Nat.digitChar (n % 10)], rfl, by simp, ?_, ?_⟩
      · intro c hc
        simp only [List.mem_singleton] at hc
        rw [hc]
        exact hdigit
      · simp only [digitsValue, List.foldl, hd, Option.getD]
        omega
    · rename_i h0
      obtain ⟨pre, hpre, _, hall, hval⟩ := ih (n / 10) (Nat.digitChar (n % 10) :: ds) (by omega)
      refine ⟨pre ++ [Nat.digitChar (n % 10)], ?_, by simp, ?_, ?_⟩
      · rw [hpre]
        simp
      · intro c hc
        rcases List.mem_append.mp hc with h1 | h1
        · exact hall c h1
        · simp only [List.mem_singleton] at h1
          rw [h1]
          exact hdigit
      · rw [digitsValue_append_singleton, hval, hd]
        simp only [Option.getD]
        omega

theorem toDigits_spec (n : Nat) :
    Nat.toDigits 10 n ≠ [] ∧ (∀ c ∈ Nat.toDigits 10 n, isRadixDigit 10 c = true) ∧
      digitsValue 10 (Nat.toDigits 10 n) = n := by
  obtain ⟨pre, hpre, hne, hall, hval⟩ := toDigitsCore_spec (n + 1) n [] (by omega)
  have : Nat.toDigits 10 n = pre := by
    simp [Nat.toDigits, hpre]
  rw [this]
  exact ⟨hne, hall, hval⟩

theorem dropWhile_of_head_false {p : Char → Bool} (c : Char) (rest : List Char)
    (h : p c = false) : (c :: rest).dropWhile p = c :: rest := by
  simp [List.dropWhile, h]

theorem isStrWhiteSpace_of_digit (c : Char) (h : isRadixDigit 10 c = true) :
    isStrWhiteSpace c = false := by
  rcases digit_cases c h with h | h | h | h | h | h | h | h | h | h <;> subst h <;> rfl

theorem parseIntChars_digits (ds : List Char) (hne : ds ≠ [])
    (hall : ∀ c ∈ ds, isRadixDigit 10 c = true) :
    parseIntChars ds = numberOfNat false (digitsValue 10 ds) := by
  have htw : ds.takeWhile (isRadixDigit 10) = ds := List.takeWhile_eq_self_iff.mpr hall
  cases ds with
  | nil => exact absurd rfl hne
  | cons c rest =>
    have hc := hall c (List.mem_cons_self _ _)
    have key : parseIntChars (c :: rest) =
        numberOfNat false (digitsValue 10 ((c :: rest).takeWhile (isRadixDigit 10))) := by
      rcases digit_cases c hc with h | h | h | h | h | h | h | h | h | h <;> subst h
      · cases rest with
        | nil => rfl
        | cons x r =>
          have hx := hall x (List.mem_cons_of_mem _ (List.mem_cons_self _ _))
          rcases digit_cases x hx with h | h | h | h | h | h | h | h | h | h <;> subst h <;> rfl
      all_goals rfl
    rw [key, htw]

theorem dropWhile_of_all_false {p : Char → Bool} (l : List Char) (h : ∀ c ∈ l, p c = false) :
    l.dropWhile p = l := by
  cases l with
  | nil => rfl
  | cons c rest => simp [List.dropWhile, h c (List.mem_cons_self _ _)]

theorem trimStrWhiteSpace_digits (ds : List Char) (hall : ∀ c ∈ ds, isRadixDigit 10 c = true) :
    trimStrWhiteSpace ds = ds := by
  have h1 : ∀ c ∈ ds, isStrWhiteSpace c = false := fun c hc => isStrWhiteSpace_of_digit c (hall c hc)
  have h2 : ∀ c ∈ ds.reverse, isStrWhiteSpace c = false :=
    fun c hc => h1 c (List.mem_reverse.mp hc)
  unfold trimStrWhiteSpace
  rw [dropWhile_of_all_false ds h1, dropWhile_of_all_false _ h2, List.reverse_reverse]

theorem isUnsignedDecimal_digits (ds : List Char) (hne : ds ≠ [])
    (hall : ∀ c ∈ ds, isRadixDigit 10 c = true) : isUnsignedDecimal ds = true := by
  have htw : ds.takeWhile (isRadixDigit 10) = ds := List.takeWhile_eq_self_iff.mpr hall
  have hdw : ds.dropWhile (isRadixDigit 10) = [] := List.dropWhile_eq_nil_iff.mpr hall
  unfold isUnsignedDecimal
  split
  · rfl
  · simp only [htw, hdw]
    cases ds with
    | nil => exact absurd rfl hne
    | cons c rest => rfl

theorem isStrNumericLiteral_digits (ds : List Char) (hne : ds ≠ [])
    (hall : ∀ c ∈ ds, isRadixDigit 10 c = true) : isStrNumericLiteral ds = true := by
  have key : isStrNumericLiteral ds = isUnsignedDecimal ds := by
    cases ds with
    | nil => exact absurd rfl hne
    | cons c rest =>
      have hc := hall c (List.mem_cons_self _ _)
      rcases digit_cases c hc with h | h | h | h | h | h | h | h | h | h <;> subst h
      · cases rest with
        | nil => rfl
        | cons x r =>
          have hx := hall x (List.mem_cons_of_mem _ (List.mem_cons_self _ _))
          rcases digit_cases x hx with h | h | h | h | h | h | h | h | h | h <;> subst h <;> rfl
      all_goals rfl
  rw [key]
  exact isUnsignedDecimal_digits ds hne hall

theorem toString_nat_toList (n : Nat) : (toString n).toList = Nat.toDigits 10 n := rfl

theorem bookPasses_decimal (n : Nat) (h1 : 1 ≤ n) (h2 : n ≤ 2 ^ 53) :
    Dashboard.bookPasses (JsValue.str (toString n)) = true ∧
      parseInt (JsValue.str (toString n)) = JsValue.num (n : Int) := by
  obtain ⟨hne, hall, hval⟩ := toDigits_spec n
  have hparse : parseInt (JsValue.str (toString n)) = JsValue.num (n : Int) := by
    simp only [parseInt, JsValue.toStr, toString_nat_toList]
    rw [parseIntChars_digits _ hne hall, hval, numberOfNat_of_le n h2]
  have hnum : stringIsNumber (toString n) = true := by
    simp only [stringIsNumber, toString_nat_toList, trimStrWhiteSpace_digits _ hall,
      isStrNumericLiteral_digits _ hne hall, Bool.or_true]
  have htruthy : (JsValue.str (toString n)).truthy = true := by
    have : toString n ≠ "" := by
      intro h
      have h3 : (toString n).toList = [] := by rw [h]; rfl
      rw [toString_nat_toList] at h3
      exact hne h3
    simp [JsValue.truthy, this]
  refine ⟨?_, hparse⟩
  simp only [Dashboard.bookPasses, htruthy, isNaN, hnum, hparse, ltNumber]
  simp
  omega

theorem Dashboard.loadRides_no_post (J : JsonCodec) (net : Fetch) (base : JsValue) (w : World)
    (d : Dashboard) : (Dashboard.loadRides J net base w d).2.filter Effect.isPost = [] := by
  simp only [Dashboard.loadRides]
  split <;> simp [api.get, api.request, api.config, Effect.isPost, List.filter]

theorem Dashboard.handleBookRide_eq (J : JsonCodec) (net : Fetch) (base : JsValue) (w : World)
    (d : Dashboard) (trajetId places : JsValue) :
    Dashboard.handleBookRide J net base w d trajetId places =
      if Dashboard.bookPasses places then
        let r := api.post J net base w "/reservations"
          (JsValue.obj [("trajet_id", trajetId), ("nombre_places", parseInt places)])
        let s := Dashboard.bookSettle J net base w d r.2
        (s.1, [Effect.prompt "Combien de places souhaitez-vous réserver ?"] ++ r.1 ++ s.2)
      else (d, [Effect.prompt "Combien de places souhaitez-vous réserver ?"]) := by
  unfold Dashboard.handleBookRide Dashboard.bookPasses
  cases hg : (!places.truthy || isNaN places || ltNumber (parseInt places) 1) with
  | true => simp
  | false =>
    simp only [Bool.not_false, if_true, Bool.false_eq_true, if_false]
    cases (api.post J net base w "/reservations"
      (JsValue.obj [("trajet_id", trajetId), ("nombre_places", parseInt places)])).2 <;>
      simp [Dashboard.bookSettle]

theorem Dashboard.bookSettle_no_post (J : JsonCodec) (net : Fetch) (base : JsValue) (w : World)
    (d : Dashboard) (res : Except Thrown JsValue) :
    (Dashboard.bookSettle J net base w d res).2.filter Effect.isPost = [] := by
  cases res with
  | error e => simp [Dashboard.bookSettle, Effect.isPost]
  | ok v => simp [Dashboard.bookSettle, Effect.isPost, Dashboard.loadRides_no_post]

/-- C19 (as amended): for every ride id and every prompt answer that is the
decimal representation of an integer `n` with `1 ≤ n ≤ 2^53`,
`handleBookRide` issues exactly one POST, to `/reservations`, whose body is
the object with `trajet_id` the id and `nombre_places` the number `n` (not
the string typed).  (A larger `n` is sent rounded to a double.) -/
theorem c19_booking_posts_seat_count (J : JsonCodec) (net : Fetch) (base : JsValue)
    (w : World) (d : Dashboard) (trajetId : JsValue) (n : Nat) (h1 : 1 ≤ n) (h2 : n ≤ 2 ^ 53) :
    (Dashboard.handleBookRide J net base w d trajetId
        (JsValue.str (toString n))).2.filter Effect.isPost =
      [Effect.fetch (api.url base "/reservations")
        (api.config J w
          { method := some "POST"
            body := JsValue.obj [("trajet_id", trajetId), ("nombre_places", JsValue.num (n : Int))]
            headers := none })] := by
  obtain ⟨hpass, hparse⟩ := bookPasses_decimal n h1 h2
  rw [Dashboard.handleBookRide_eq, if_pos hpass, hparse]
  simp [api.post, api.request, List.filter_append, Dashboard.bookSettle_no_post, Effect.isPost,
    api.config]

/-- C19, witness: two seats on ride `r1`. -/
theorem c19_booking_posts_seat_count_witness :
    (Dashboard.handleBookRide stdCodec okNet (API_BASE_URL JsValue.undefined) emptyWorld
        sampleDashboard (JsValue.str "r1") (JsValue.str (toString 2))).2.filter Effect.isPost =
      [Effect.fetch "http://localhost:8001/api/reservations"
        { headers := [("Content-Type", "application/json")], method := some "POST"
          body := JsValue.str "\x7b\"trajet_id\":\"r1\",\"nombre_places\":2\x7d" }] :=
  c19_booking_posts_seat_count stdCodec okNet (API_BASE_URL JsValue.undefined) emptyWorld
    sampleDashboard (JsValue.str "r1") 2 (by decide) (by decide)

/-- C19, counterexample: the answer `9007199254740993`, the decimal
representation of `2^53 + 1`, is posted as the number 9007199254740992. -/
theorem c19_large_seat_count_is_rounded :
    toString (2 ^ 53 + 1) = "9007199254740993" ∧
    (Dashboard.handleBookRide stdCodec okNet (API_BASE_URL JsValue.undefined) emptyWorld
        sampleDashboard (JsValue.str "r1") (JsValue.str "9007199254740993")).2.filter
          Effect.isPost =
      [Effect.fetch "http://localhost:8001/api/reservations"
        { headers := [("Content-Type", "application/json")], method := some "POST"
          body := JsValue.str
            "\x7b\"trajet_id\":\"r1\",\"nombre_places\":9007199254740992\x7d" }] ∧
    (9007199254740992 : Int) ≠ 2 ^ 53 + 1 :=
  ⟨by decide, rfl, by decide⟩

end AfriKar
